import Mathlib

/-!
# Verification of the v_help conversation engine

Shallow embedding of the conversation orchestration engine of the `v_help`
repository (`app/conversation.py`, with the service catalog and FAQ data of
`app/services.py` and the fallback contract of `app/ai.py`), together with
theorems settling the frozen specification claims.

Conventions of the embedding:
* Python strings are Lean `String`s; character-level work happens on `List Char`.
* `datetime.now()` is modelled by an explicit `now : Nat` parameter (minutes);
  `timedelta(minutes = t)` comparisons become `Nat` comparisons.
* In-place mutation of sessions becomes explicit state passing: a handler
  returns the updated session next to the reply and next state.
* The regular expressions of the source are hand-compiled to deterministic
  matchers over `List Char`; each matcher carries a comment naming the regex
  it implements and `re.search`'s leftmost-match scan is an explicit
  position-by-position scan.
* A few strings of `app/conversation.py` contain mojibake (the source file
  literally stores double-encoded emoji); the Lean literals reproduce the
  characters as they stand in the file.
-/

namespace VHelp

/-! ## Character and list-of-character utilities -/

/-- Lower-case a string character by character (`str.lower` for the ASCII
range used throughout the source). -/
def strLower (s : String) : String :=
  String.mk (s.data.map Char.toLower)

/-- `str.strip()`: drop leading and trailing whitespace of a character list.
(The embedding avoids core `String.trim`, whose well-founded recursion does
not reduce inside the kernel.) -/
def trimCL (l : List Char) : List Char :=
  ((l.dropWhile Char.isWhitespace).reverse.dropWhile Char.isWhitespace).reverse

/-- `str.strip()` on strings. -/
def strTrim (s : String) : String :=
  String.mk (trimCL s.data)

/-- `\w` of Python's `re` restricted to ASCII: letters, digits, underscore. -/
def isWordChar (c : Char) : Bool :=
  c.isAlphanum || c = '_'

/-- `needle` is a prefix of `hay` (character lists). -/
def startsWithCL : List Char → List Char → Bool
  | [], _ => true
  | _ :: _, [] => false
  | a :: as, b :: bs => a = b && startsWithCL as bs

/-- Python's `needle in hay` substring test on character lists. -/
def isInfixCL (needle : List Char) : List Char → Bool
  | [] => needle.isEmpty
  | c :: t => startsWithCL needle (c :: t) || isInfixCL needle t

/-- Python's `needle in hay` substring test on strings. -/
def containsSub (hay needle : String) : Bool :=
  isInfixCL needle.data hay.data

/-- The last `n` elements of a list: the retention rule of a
`deque(maxlen = n)` after an append. -/
def takeLast (n : Nat) (l : List α) : List α :=
  l.drop (l.length - n)

/-- Maximal runs of characters satisfying `p` (used for `re.findall(r'\w+')`
style tokenization). `cur` accumulates the current run in reverse. -/
def runsByAux (p : Char → Bool) (cur : List Char) : List Char → List (List Char)
  | [] => if cur.isEmpty then [] else [cur.reverse]
  | c :: t =>
    if p c then runsByAux p (c :: cur) t
    else if cur.isEmpty then runsByAux p [] t
    else cur.reverse :: runsByAux p [] t

/-- All maximal runs of characters satisfying `p` in a list. -/
def runsBy (p : Char → Bool) (s : List Char) : List (List Char) :=
  runsByAux p [] s

/-- `re.findall(r'\w+', s)` — the word tokens of a string. -/
def wordTokens (s : String) : List String :=
  (runsBy isWordChar s.data).map String.mk

/-- `s.split()` token count (split on whitespace runs). -/
def wsTokenCount (s : String) : Nat :=
  (runsBy (fun c => !c.isWhitespace) s.data).length

/-- Numeric value of a digit run — `int()` applied to the matched group. -/
def digitsVal (ds : List Char) : Nat :=
  ds.foldl (fun a c => 10 * a + (c.toNat - '0'.toNat)) 0

/-- `str.replace(pat, repl)`: replace every non-overlapping occurrence,
scanning left to right. -/
def replaceAllCL (pat repl : List Char) : List Char → List Char
  | [] => []
  | c :: t =>
    if _h : pat ≠ [] ∧ startsWithCL pat (c :: t) then
      repl ++ replaceAllCL pat repl (List.drop (pat.length - 1) t)
    else
      c :: replaceAllCL pat repl t
  termination_by l => l.length
  decreasing_by
    · simp only [List.length_cons]
      have := List.length_drop (pat.length - 1) t
      omega
    · simp [Nat.lt_succ_self]

/-- `str.replace` on strings. -/
def replaceAll (s pat repl : String) : String :=
  String.mk (replaceAllCL pat.data repl.data s.data)

/-! ## `app/services.py` — catalog, FAQ and formatter data

Only the fields read by the conversation flow are embedded
(`category`, `complexity`, `tags`, … are never consulted by it). -/

/-- Pricing tiers of the catalog (`PricingTier`). -/
inductive PricingTier
  | STARTER
  | PROFESSIONAL
  | BUSINESS
  | ENTERPRISE
  deriving DecidableEq

/-- `pricing_tier.value.title()` as used by `format_service_detail`. -/
def PricingTier.valueTitle : PricingTier → String
  | .STARTER => "Starter"
  | .PROFESSIONAL => "Professional"
  | .BUSINESS => "Business"
  | .ENTERPRISE => "Enterprise"

/-- `ServicePackage`, restricted to the fields the conversation flow reads. -/
structure ServicePackage where
  id : String
  name : String
  display_name : String
  description : String
  detailed_description : String
  key_deliverables : List String
  typical_hours_min : Nat
  typical_hours_max : Nat
  pricing_tier : PricingTier
  required_tools : List String
  requires_consultation : Bool
  deriving DecidableEq

/-- The service catalog, in id order (`ServiceCatalog._initialize_services`;
`get_all_services` sorts by `int(id)`, which coincides with this order). -/
def serviceCatalog : List ServicePackage := [
  { id := "1", name := "admin_support", display_name := "Administrative Support",
    description := "Email triage, scheduling, data entry, and general ops.",
    detailed_description :=
      "Comprehensive administrative support to keep your business running smoothly. " ++
      "From inbox management to data organization, we handle the details so you can " ++
      "focus on growth.",
    key_deliverables := ["Email triage and response management",
      "Calendar scheduling and coordination", "Data entry and database management",
      "Document preparation and filing", "Travel arrangements",
      "Meeting preparation and notes"],
    typical_hours_min := 10, typical_hours_max := 40,
    pricing_tier := .PROFESSIONAL,
    required_tools := ["Google Workspace", "Microsoft Office"],
    requires_consultation := false },
  { id := "2", name := "social_media", display_name := "Social Media Management",
    description := "Content calendars, post scheduling, and community engagement.",
    detailed_description :=
      "Full-service social media management to build your brand presence. " ++
      "We create engaging content, manage posting schedules, and interact with " ++
      "your community across all major platforms.",
    key_deliverables := ["Monthly content calendar creation",
      "Daily post scheduling (3-5 posts/day)", "Community engagement and responses",
      "Hashtag research and optimization", "Analytics reporting (weekly/monthly)",
      "Brand voice consistency"],
    typical_hours_min := 15, typical_hours_max := 40,
    pricing_tier := .PROFESSIONAL,
    required_tools := ["Hootsuite/Buffer", "Canva", "Social platforms"],
    requires_consultation := false },
  { id := "3", name := "customer_support", display_name := "Customer Support",
    description := "Tickets, FAQs, chat handling, and follow-ups.",
    detailed_description :=
      "Professional customer support that delights your clients. " ++
      "We handle inquiries, resolve issues, and ensure every customer " ++
      "interaction reflects your brand values.",
    key_deliverables := ["Email and chat support responses",
      "Ticket management and tracking", "FAQ documentation",
      "Customer follow-up sequences", "Issue escalation handling",
      "Satisfaction surveys"],
    typical_hours_min := 20, typical_hours_max := 40,
    pricing_tier := .PROFESSIONAL,
    required_tools := ["Zendesk/Freshdesk", "Email", "Live Chat"],
    requires_consultation := false },
  { id := "4", name := "email_calendar", display_name := "Email & Calendar Management",
    description := "Inbox management, meeting scheduling, and reminders.",
    detailed_description :=
      "Take control of your time with expert email and calendar management. " ++
      "We organize your inbox, schedule meetings efficiently, and ensure " ++
      "you never miss important deadlines.",
    key_deliverables := ["Inbox zero methodology", "Priority email flagging",
      "Meeting coordination (with multiple parties)", "Calendar optimization",
      "Reminder setup and management", "Email template creation"],
    typical_hours_min := 5, typical_hours_max := 20,
    pricing_tier := .STARTER,
    required_tools := ["Gmail/Outlook", "Google Calendar"],
    requires_consultation := false },
  { id := "5", name := "project_management", display_name := "Project Management",
    description := "Task tracking, status updates, and coordination across teams.",
    detailed_description :=
      "Keep projects on track with professional project management support. " ++
      "We coordinate tasks, track progress, and ensure seamless communication " ++
      "across all team members.",
    key_deliverables := ["Project planning and roadmaps",
      "Task creation and assignment", "Progress tracking and reporting",
      "Team coordination", "Deadline management", "Stakeholder updates"],
    typical_hours_min := 15, typical_hours_max := 40,
    pricing_tier := .PROFESSIONAL,
    required_tools := ["Asana/Trello/Monday", "Slack"],
    requires_consultation := false },
  { id := "6", name := "bookkeeping", display_name := "Bookkeeping & Invoicing",
    description := "Expense tracking, invoicing, and basic bookkeeping.",
    detailed_description :=
      "Maintain financial clarity with professional bookkeeping support. " ++
      "We track expenses, manage invoices, and keep your books organized " ++
      "for smooth tax season and business decisions.",
    key_deliverables := ["Expense categorization and tracking",
      "Invoice generation and follow-up", "Receipt management",
      "Monthly financial reports", "Accounts receivable tracking",
      "Basic reconciliation"],
    typical_hours_min := 10, typical_hours_max := 30,
    pricing_tier := .BUSINESS,
    required_tools := ["QuickBooks/Xero", "Excel/Sheets"],
    requires_consultation := false },
  { id := "7", name := "content_writing", display_name := "Content Writing & Copy",
    description := "Blog posts, landing pages, captions, and email copy.",
    detailed_description :=
      "Engage your audience with compelling content that converts. " ++
      "From blog posts to marketing copy, we create content that " ++
      "reflects your brand voice and drives results.",
    key_deliverables := ["Blog posts (4-8 per month)", "Landing page copy",
      "Email campaigns and sequences", "Social media captions",
      "Product descriptions", "SEO optimization"],
    typical_hours_min := 10, typical_hours_max := 30,
    pricing_tier := .PROFESSIONAL,
    required_tools := ["Google Docs", "Grammarly"],
    requires_consultation := false },
  { id := "8", name := "custom", display_name := "Custom Service Package",
    description := "Tell us your unique needs and we'll create a custom solution.",
    detailed_description :=
      "Every business is unique. If your needs don't fit our standard packages, " ++
      "we'll work with you to create a custom service plan tailored specifically " ++
      "to your requirements and goals.",
    key_deliverables := ["Customized based on consultation",
      "Flexible scope and deliverables", "Tailored to your specific needs"],
    typical_hours_min := 5, typical_hours_max := 40,
    pricing_tier := .PROFESSIONAL,
    required_tools := [],
    requires_consultation := true }
]

/-- Legacy mapping `SERVICES = {s.id: s.display_name for s in get_all_services()}`
(dict in id order). -/
def SERVICES : List (String × String) :=
  serviceCatalog.map (fun s => (s.id, s.display_name))

/-- `ServiceFormatter.WELCOME_MESSAGE`. -/
def WELCOME_MESSAGE : String :=
  "Hi 👋 Welcome!\n" ++
  "I'm Esther's virtual assistant.\n\n" ++
  "I'll help you find the perfect service for your needs. " ++
  "Let's get started! 🚀"

/-- `ServiceFormatter.BOOKING_LINK`. -/
def BOOKING_LINK : String :=
  "https://calendar.google.com/calendar/r/eventedit?" ++
  "text=Discovery+Call&details=Please+book+a+30-minute+discovery+call+with+Esther&sf=true"

/-- `ServiceFormatter.format_services_menu` applied to the global catalog. -/
def format_services_menu : String :=
  let svcLines := serviceCatalog.flatMap (fun s =>
    [s.id ++ ". *" ++ s.display_name ++ "*", "   " ++ s.description ++ "\n"])
  let lines := [WELCOME_MESSAGE, "\n📋 *Available Services:*\n"] ++ svcLines ++
    ["\n💡 Reply with the *number* or *service name* to learn more.\n" ++
     "Type *MENU* anytime to return here."]
  String.intercalate "\n" lines

/-- `ServiceCatalog.get_service_by_name` — case-insensitive display-name lookup. -/
def get_service_by_name (name : String) : Option ServicePackage :=
  serviceCatalog.find? (fun s => strLower s.display_name == strLower name)

/-- `ServiceFormatter.format_service_detail` for one package
(`include_pricing` and `include_tools` at their `True` defaults). -/
def formatServiceDetailPkg (s : ServicePackage) : String :=
  let lines0 := ["✨ *" ++ s.display_name ++ "*\n",
    s.detailed_description ++ "\n",
    "\n🎯 *What's Included:*"]
  let delivLines := (s.key_deliverables.take 6).map (fun d => "• " ++ d)
  let pricingLines :=
    ["\n⏰ *Typical Hours:* " ++ toString s.typical_hours_min ++ "-" ++
       toString s.typical_hours_max ++ " hours/week",
     "💰 *Pricing Tier:* " ++ s.pricing_tier.valueTitle]
  let toolLines :=
    if s.required_tools.isEmpty then []
    else ["\n🛠️ *Tools Used:* " ++ String.intercalate ", " (s.required_tools.take 3)]
  let consultLines :=
    if s.requires_consultation then
      ["\n⚠️ *Note:* This service requires a consultation call to customize."]
    else []
  let lines := lines0 ++ delivLines ++ pricingLines ++ toolLines ++ consultLines ++
    ["\n\nReply *YES* to proceed, or *NO* to see other options."]
  String.intercalate "\n" lines

/-- Module-level `format_service_detail(service_name)` — lookup by display name,
with the not-found fallback string. -/
def format_service_detail (service_name : String) : String :=
  match get_service_by_name service_name with
  | none => "Service '" ++ service_name ++ "' not found."
  | some s => formatServiceDetailPkg s

/-- `FAQS = {faq.id: faq.answer for faq in get_all()}` — FAQ ids and answers in
`get_all()`'s order: priority descending, ties in insertion order. -/
def FAQS : List (String × String) := [
  ("pricing",
    "💰 *Pricing:*\n" ++
    "Our pricing depends on the service and hours you need. " ++
    "Typical ranges:\n" ++
    "• Starter: $300-$800/month (5-15 hours)\n" ++
    "• Professional: $800-$2,000/month (15-30 hours)\n" ++
    "• Business: $2,000-$5,000/month (30+ hours)\n\n" ++
    "Book a discovery call for a custom quote!"),
  ("trial",
    "✅ *Trial & Onboarding:*\n" ++
    "Yes! We offer:\n" ++
    "1. Free 30-minute discovery call\n" ++
    "2. Custom proposal and scope\n" ++
    "3. 2-week trial period at reduced rate\n" ++
    "4. No long-term commitment required\n\n" ++
    "This helps ensure we're the right fit for your needs!"),
  ("availability",
    "🕐 *Availability:*\n" ++
    "We work Monday–Friday, with flexible hours to match your timezone. " ++
    "Standard coverage is 9 AM - 5 PM, with extended hours available " ++
    "for certain services. We accommodate most US, UK, and AU time zones."),
  ("security",
    "🔒 *Security & Confidentiality:*\n" ++
    "Your data is safe with us:\n" ++
    "• All team members sign NDAs\n" ++
    "• We use secure password managers\n" ++
    "• 2FA enabled on all accounts\n" ++
    "• GDPR and data privacy compliant\n" ++
    "• Regular security training\n\n" ++
    "We take your privacy seriously!"),
  ("tools",
    "🛠️ *Tools & Platforms:*\n" ++
    "We're experienced with:\n" ++
    "• Google Workspace, Microsoft Office\n" ++
    "• Notion, Asana, Trello, Monday.com\n" ++
    "• Slack, Zoom, Teams\n" ++
    "• QuickBooks, Xero, FreshBooks\n" ++
    "• Hootsuite, Buffer, Canva\n" ++
    "• Most common CRMs and project tools\n\n" ++
    "Plus we're quick to learn new platforms!"),
  ("payment",
    "💳 *Payment:*\n" ++
    "We accept:\n" ++
    "• Credit/debit cards (Stripe)\n" ++
    "• Bank transfer\n" ++
    "• PayPal\n" ++
    "• Monthly invoicing\n\n" ++
    "Payment terms: Net 7 days. " ++
    "Monthly retainers billed at the beginning of each month."),
  ("communication",
    "💬 *Communication:*\n" ++
    "We adapt to your preferred method:\n" ++
    "• Slack (most common)\n" ++
    "• Email\n" ++
    "• WhatsApp\n" ++
    "• Project management tools\n" ++
    "• Weekly check-in calls available\n\n" ++
    "We're responsive and keep you updated on all tasks!"),
  ("cancellation",
    "📋 *Cancellation Policy:*\n" ++
    "We believe in flexibility:\n" ++
    "• 30-day notice for cancellation\n" ++
    "• No long-term contracts required\n" ++
    "• Monthly rolling agreements\n" ++
    "• Scale up or down anytime\n\n" ++
    "We want you to stay because you're happy, not because you're locked in!")
]

/-! ## `app/conversation.py` — enums and data models -/

/-- `ConversationState` — all conversation states. -/
inductive ConversationState
  | INITIAL
  | SERVICE_SELECTION
  | SERVICE_DETAIL
  | HOURS_COLLECTION
  | BUSINESS_TYPE
  | BUDGET_COLLECTION
  | CONFIRMATION
  | COMPLETED
  | HUMAN_HANDOFF
  | FAQ_MODE
  | ERROR
  deriving DecidableEq

/-- `Intent` — user intent classification. -/
inductive Intent
  | GREETING
  | SERVICE_INQUIRY
  | BOOKING
  | FAQ
  | HELP
  | RESTART
  | CONFIRMATION
  | REJECTION
  | HUMAN_REQUEST
  | SMALL_TALK
  | COMPLAINT
  | UNKNOWN
  deriving DecidableEq

/-- `SentimentScore` — sentiment analysis scores. -/
inductive SentimentScore
  | VERY_POSITIVE
  | POSITIVE
  | NEUTRAL
  | NEGATIVE
  | VERY_NEGATIVE
  deriving DecidableEq

/-- `SentimentScore.value`. -/
def SentimentScore.value : SentimentScore → Int
  | .VERY_POSITIVE => 2
  | .POSITIVE => 1
  | .NEUTRAL => 0
  | .NEGATIVE => -1
  | .VERY_NEGATIVE => -2

/-- `SentimentScore(int)` — enum lookup by value. Values other than
`-2 … 2` raise `ValueError` in Python and never occur here, because every
stored score is the `value` of a constructor; they default to `NEUTRAL`. -/
def sentimentOfValue : Int → SentimentScore
  | 2 => .VERY_POSITIVE
  | 1 => .POSITIVE
  | 0 => .NEUTRAL
  | -1 => .NEGATIVE
  | -2 => .VERY_NEGATIVE
  | _ => .NEUTRAL

/-- One record of `ConversationContext.messages`. The `timestamp` field of
the source is written but never read and is omitted. -/
structure CtxMessage where
  role : String
  content : String
  intent : Option Intent
  deriving DecidableEq

/-- `ConversationContext` — per-session rolling history. `messages` and
`intents` model `deque(maxlen = 10)` and `deque(maxlen = 5)`, newest last. -/
structure ConversationContext where
  messages : List CtxMessage := []
  intents : List Intent := []
  sentiment_scores : List Int := []
  topics_discussed : List String := []
  clarification_attempts : Nat := 0
  deriving DecidableEq

instance : Inhabited ConversationContext := ⟨{}⟩

/-- `ConversationContext.add_message` — append to the bounded buffers. -/
def ConversationContext.add_message (ctx : ConversationContext)
    (role content : String) (intent : Option Intent := none) : ConversationContext :=
  { ctx with
    messages := takeLast 10 (ctx.messages ++ [⟨role, content, intent⟩]),
    intents := match intent with
      | some i => takeLast 5 (ctx.intents ++ [i])
      | none => ctx.intents }

/-- `ConversationContext.get_recent_intents`. -/
def ConversationContext.get_recent_intents (ctx : ConversationContext)
    (count : Nat := 3) : List Intent :=
  takeLast count ctx.intents

/-- `ConversationContext.add_sentiment`. -/
def ConversationContext.add_sentiment (ctx : ConversationContext)
    (score : Int) : ConversationContext :=
  { ctx with sentiment_scores := ctx.sentiment_scores ++ [score] }

/-- `ConversationContext.is_frustrated`. -/
def ConversationContext.is_frustrated (ctx : ConversationContext) : Bool :=
  if ctx.sentiment_scores.length < 3 then false
  else
    (takeLast 3 ctx.sentiment_scores).all (fun s => s < 0) ||
      ctx.clarification_attempts > 2

/-- Add a topic to the `topics_discussed` set. -/
def ConversationContext.addTopic (ctx : ConversationContext)
    (name : String) : ConversationContext :=
  if ctx.topics_discussed.contains name then ctx
  else { ctx with topics_discussed := ctx.topics_discussed ++ [name] }

/-- `UserSession` — per-user state. Timestamps are `Nat` minutes. -/
structure UserSession where
  user_id : String
  state : ConversationState := .INITIAL
  created_at : Nat
  last_updated : Nat
  service : Option String := none
  service_key : Option String := none
  hours_per_week : Option Nat := none
  business_type : Option String := none
  budget : Option String := none
  message_count : Nat := 0
  error_count : Nat := 0
  context : ConversationContext := {}
  preferred_response_style : String := "professional"
  timezone : Option String := none
  language_preference : String := "en"
  deriving DecidableEq

/-- `UserSession(user_id = uid)` — fresh session, defaults as in the
dataclass, timestamps at `now`. -/
def UserSession.new (uid : String) (now : Nat) : UserSession :=
  { user_id := uid, created_at := now, last_updated := now }

/-- `UserSession.update_timestamp`. -/
def UserSession.update_timestamp (s : UserSession) (now : Nat) : UserSession :=
  { s with last_updated := now, message_count := s.message_count + 1 }

/-- `UserSession.increment_error`. -/
def UserSession.increment_error (s : UserSession) : UserSession :=
  { s with error_count := s.error_count + 1 }

/-- `UserSession.reset`. The source's `keep_preferences` branch restores
`preferred_response_style` and `timezone` to the values they already hold, so
the fields are unchanged whichever way the flag is set; every call in the
flow uses the `True` default. Ends with `update_timestamp()`. -/
def UserSession.reset (s : UserSession) (now : Nat) : UserSession :=
  ({ s with
      state := .SERVICE_SELECTION,
      service := none,
      service_key := none,
      hours_per_week := none,
      business_type := none,
      budget := none,
      context := {} } : UserSession).update_timestamp now

/-- `UserSession.is_session_expired`. -/
def UserSession.is_session_expired (s : UserSession) (now : Nat)
    (timeout_minutes : Nat := 30) : Bool :=
  now - s.last_updated > timeout_minutes

/-! ## NLU — intent classification -/

/-- `\b` before a phrase starting in a word character: start of string or a
non-word character just before the scan position. -/
def boundaryB : Option Char → Bool
  | none => true
  | some c => !isWordChar c

/-- `\b` after a phrase ending in a word character: end of string or a
non-word character next. -/
def afterB : List Char → Bool
  | [] => true
  | c :: _ => !isWordChar c

/-- One word-boundary alternative of an intent pattern: `\bALT\b` where `ALT`
is a literal (possibly multi-word) phrase beginning and ending in word
characters, so that each `\b` amounts to "adjacent character, if any, is not
a word character". `prev` is the character just before the scan position. -/
def wbScan (alt : List Char) (prev : Option Char) : List Char → Bool
  | [] => false
  | c :: t =>
    (boundaryB prev && startsWithCL alt (c :: t) &&
      afterB (List.drop alt.length (c :: t))) ||
    wbScan alt (some c) t

/-- `re.search(r'\b(...)\b', s)` for one alternative. -/
def wbMatch (alt : String) (s : List Char) : Bool :=
  wbScan alt.data none s

/-- A pattern of `IntentClassifier.PATTERNS` is the list of its alternatives;
it matches when any alternative matches with word boundaries. -/
def patternMatches (alts : List String) (s : List Char) : Bool :=
  alts.any (fun a => wbMatch a s)

/-- The alternatives of the `GREETING` pattern. -/
def greetingAlts : List String :=
  ["hi", "hello", "hey", "good morning", "good afternoon",
   "good evening", "yo", "sup"]

/-- The alternatives of the `REJECTION` pattern. -/
def rejectionAlts : List String :=
  ["no", "nope", "not now", "later", "cancel", "back",
   "nevermind", "nah", "negative", "wrong"]

/-- `IntentClassifier.PATTERNS` — the ordered rule list; each intent carries
its list of patterns, each pattern its `\b(alt|…)\b` alternatives. -/
def intentRules : List (Intent × List (List String)) := [
  (.GREETING, [greetingAlts]),
  (.RESTART, [["restart", "reset", "start over", "clear", "begin again",
    "new session"]]),
  (.CONFIRMATION, [["yes", "yep", "yeah", "sure", "ok", "okay", "correct",
    "right", "confirm", "proceed", "continue", "absolutely", "definitely"]]),
  (.REJECTION, [rejectionAlts]),
  (.HUMAN_REQUEST, [["speak to", "talk to", "human", "person", "agent",
    "representative", "real person", "someone", "help me"],
    ["customer service", "support", "assistance"]]),
  (.HELP, [["help", "assist", "support", "guide", "how do", "how to",
    "what can you", "confused"]]),
  (.FAQ, [["pricing", "price", "cost", "hours", "availability", "how long",
    "when", "location", "contact"]]),
  (.COMPLAINT, [["terrible", "horrible", "bad", "worst", "disappointed",
    "frustrated", "angry", "upset", "useless"]])
]

/-- First rule of `intentRules` whose patterns match — the priority scan of
`IntentClassifier.classify`. -/
def ruleFirstMatch (s : List Char) : Option Intent :=
  intentRules.findSome? (fun r =>
    if r.2.any (fun alts => patternMatches alts s) then some r.1 else none)

/-- `message.lower().strip()` as a character list. -/
def normMsg (message : String) : List Char :=
  trimCL (strLower message).data

/-- `IntentClassifier.classify` (the local `msg_low` of the source is the
inlined `normMsg message`). -/
def classify (message : String) (context : ConversationContext) : Intent :=
  match ruleFirstMatch (normMsg message) with
  | some intent => intent
  | none =>
    if (context.get_recent_intents 2).contains Intent.REJECTION &&
        (runsBy (fun c => !c.isWhitespace) (normMsg message)).length > 2 then
      Intent.SERVICE_INQUIRY
    else if (normMsg message).any Char.isDigit then
      Intent.SERVICE_INQUIRY
    else
      Intent.UNKNOWN

/-! ## NLU — sentiment analysis -/

/-- `SentimentAnalyzer.POSITIVE_WORDS`. (`"thank you"` contains a space and
can never equal a single `\w+` token; it is kept for fidelity.) -/
def POSITIVE_WORDS : List String :=
  ["great", "awesome", "perfect", "excellent", "wonderful", "fantastic",
   "love", "amazing", "good", "nice", "thanks", "thank you", "appreciate"]

/-- `SentimentAnalyzer.NEGATIVE_WORDS`. -/
def NEGATIVE_WORDS : List String :=
  ["bad", "terrible", "horrible", "worst", "hate", "awful", "poor",
   "frustrated", "angry", "upset", "disappointed", "useless", "waste"]

/-- `SentimentAnalyzer.analyze`. The source also counts exclamation marks
into a local variable that the decision table never reads. -/
def analyze (message : String) : SentimentScore :=
  let words := (wordTokens (strLower message)).dedup
  let positive_count := words.countP (fun w => POSITIVE_WORDS.contains w)
  let negative_count := words.countP (fun w => NEGATIVE_WORDS.contains w)
  if negative_count > positive_count + 1 then
    if negative_count ≥ 3 then .VERY_NEGATIVE else .NEGATIVE
  else if positive_count > negative_count + 1 then
    if positive_count ≥ 3 then .VERY_POSITIVE else .POSITIVE
  else if positive_count > negative_count then .POSITIVE
  else if negative_count > positive_count then .NEGATIVE
  else .NEUTRAL

/-! ## NLU — entity extraction: hours

`EntityExtractor.extract_hours` tries four regexes in order on
`message.lower()`; the first *pattern* whose leftmost match yields a value in
`[1, 168]` wins, otherwise the next pattern is tried.

Each regex is compiled to a deterministic matcher. Backtracking is
deterministic for these patterns: shrinking a greedy `\d+` leaves a digit
where a non-digit is required, shrinking a greedy `\s*` leaves a whitespace
character where a word is required, and dropping the optional `s` of
`hours?`/`hrs?` (or an optional `per|/|a`) leaves a character that no
following alternative can consume. -/

/-- Tail of pattern 3, `r'(\d+)\s*(?:hours?|hrs?)'`, after the digit group:
whitespace then `hour` or `hr` (the trailing optional `s` constrains
nothing). Also the tail of pattern 2 after its digit group. -/
def hoursTail3 (post : List Char) : Bool :=
  let r := post.dropWhile Char.isWhitespace
  startsWithCL "hour".data r || startsWithCL "hr".data r

/-- End of pattern 1 after the hour token:
`\s*(?:per|\/|a)?\s*(?:week|wk)`. -/
def hoursTail1b (r0 : List Char) : Bool :=
  let r1 := r0.dropWhile Char.isWhitespace
  let r2 :=
    if startsWithCL "per".data r1 then r1.drop 3
    else if startsWithCL "/".data r1 then r1.drop 1
    else if startsWithCL "a".data r1 then r1.drop 1
    else r1
  let r3 := r2.dropWhile Char.isWhitespace
  startsWithCL "week".data r3 || startsWithCL "wk".data r3

/-- Optional plural `s` of `hours?` / `hrs?`, taken greedily. -/
def dropOptS (l : List Char) : List Char :=
  if startsWithCL "s".data l then l.drop 1 else l

/-- Tail of pattern 1, `r'(\d+)\s*(?:hours?|hrs?|h)\s*(?:per|\/|a)?\s*(?:week|wk)'`,
after the digit group: whitespace, one of `hours?`/`hrs?`/`h` (in that
alternation order), then `hoursTail1b`. -/
def hoursTail1 (post : List Char) : Bool :=
  let r := post.dropWhile Char.isWhitespace
  if startsWithCL "hour".data r then hoursTail1b (dropOptS (r.drop 4))
  else if startsWithCL "hr".data r then hoursTail1b (dropOptS (r.drop 2))
  else if startsWithCL "h".data r then hoursTail1b (r.drop 1)
  else false

/-- Tail of pattern 4, `r'\b(\d+)(?:\s*(?:hour|hr))?\b'`, after the digit
group: the optional group is tried first (whitespace then `hour` or `hr`,
each followed by `\b`), then the empty alternative with `\b` right after the
digits. -/
def hoursTail4 (post : List Char) : Bool :=
  let r := post.dropWhile Char.isWhitespace
  (startsWithCL "hour".data r && afterB (r.drop 4)) ||
  (startsWithCL "hr".data r && afterB (r.drop 2)) ||
  afterB post

/-- `re.search` scan for the digit-first patterns 1 and 3: at each position,
a match requires a digit, consumes the maximal digit run (`\d+` cannot
usefully backtrack, see above) and hands the remainder to `tailCheck`; the
group is the digit run. -/
def scanTail (tailCheck : List Char → Bool) : List Char → Option (List Char)
  | [] => none
  | c :: t =>
    if c.isDigit then
      if tailCheck (List.dropWhile Char.isDigit (c :: t)) then
        some (List.takeWhile Char.isDigit (c :: t))
      else scanTail tailCheck t
    else scanTail tailCheck t

/-- Leading token of pattern 2, `(?:need|want|require)`. -/
def p2Tok (s : List Char) : Option (List Char) :=
  if startsWithCL "need".data s then some (s.drop 4)
  else if startsWithCL "want".data s then some (s.drop 4)
  else if startsWithCL "require".data s then some (s.drop 7)
  else none

/-- One position of pattern 2, `r'(?:need|want|require)\s*(\d+)\s*(?:hours?|hrs?)'`. -/
def p2At (s : List Char) : Option (List Char) :=
  match p2Tok s with
  | none => none
  | some rest =>
    let r := rest.dropWhile Char.isWhitespace
    let ds := r.takeWhile Char.isDigit
    if ds.isEmpty then none
    else if hoursTail3 (r.dropWhile Char.isDigit) then some ds
    else none

/-- `re.search` scan for pattern 2. -/
def p2Find : List Char → Option (List Char)
  | [] => none
  | c :: t =>
    match p2At (c :: t) with
    | some ds => some ds
    | none => p2Find t

/-- `re.search` scan for pattern 4; `prev` carries the previous character for
the leading `\b` (the first group character is a digit, hence a word
character, so the boundary holds iff `prev` is absent or non-word). -/
def p4Find (prev : Option Char) : List Char → Option (List Char)
  | [] => none
  | c :: t =>
    if boundaryB prev && c.isDigit then
      if hoursTail4 (List.dropWhile Char.isDigit (c :: t)) then
        some (List.takeWhile Char.isDigit (c :: t))
      else p4Find (some c) t
    else p4Find (some c) t

/-- One step of the pattern loop of `extract_hours`: if the pattern matched,
accept its value when it lies in `[1, 168]`, otherwise move to `next`. -/
def hoursGate (o : Option (List Char)) (next : Option Nat) : Option Nat :=
  match o with
  | some ds =>
    let hours := digitsVal ds
    if 1 ≤ hours ∧ hours ≤ 168 then some hours else next
  | none => next

/-- `EntityExtractor.extract_hours`. -/
def extract_hours (message : String) : Option Nat :=
  let s := (strLower message).data
  hoursGate (scanTail hoursTail1 s)
    (hoursGate (p2Find s)
      (hoursGate (scanTail hoursTail3 s)
        (hoursGate (p4Find none s) none)))

/-! ## NLU — entity extraction: budget

`EntityExtractor.extract_budget` returns `match.group(0)` of the first of
three regexes that matches `message.lower()`. The matchers below return the
matched text. Greedy parsing without backtracking is faithful here because
no mandatory continuation of these patterns can begin with the `,` or `.`
or digit that shrinking a greedy part would expose. -/

/-- `(?:,\d{3})*`, greedily: consumed text and remainder. -/
def commaGroups : List Char → List Char × List Char
  | ',' :: a :: b :: c :: rest =>
    if a.isDigit && b.isDigit && c.isDigit then
      let (g, r) := commaGroups rest
      (',' :: a :: b :: c :: g, r)
    else ([], ',' :: a :: b :: c :: rest)
  | l => ([], l)

/-- `(?:\.\d{2})?`, greedily. -/
def dotPart : List Char → List Char × List Char
  | '.' :: a :: b :: rest =>
    if a.isDigit && b.isDigit then (['.', a, b], rest)
    else ([], '.' :: a :: b :: rest)
  | l => ([], l)

/-- Whitespace split: `\s*` consumed text and remainder. -/
def spanWs (l : List Char) : List Char × List Char :=
  (l.takeWhile Char.isWhitespace, l.dropWhile Char.isWhitespace)

/-- Digit split: `\d+`-candidate consumed text and remainder. -/
def spanDigits (l : List Char) : List Char × List Char :=
  (l.takeWhile Char.isDigit, l.dropWhile Char.isDigit)

/-- `\d+(?:,\d{3})*(?:\.\d{2})?` — an amount; `none` when no digit leads. -/
def amountPart (l : List Char) : Option (List Char × List Char) :=
  let (ds, r1) := spanDigits l
  if ds.isEmpty then none
  else
    let (g, r2) := commaGroups r1
    let (d, r3) := dotPart r2
    some (ds ++ g ++ d, r3)

/-- One position of budget pattern 1,
`r'\$\s*\d+(?:,\d{3})*(?:\.\d{2})?(?:\s*-\s*\$?\s*\d+(?:,\d{3})*(?:\.\d{2})?)?'`. -/
def b1At (s : List Char) : Option (List Char) :=
  match s with
  | '$' :: r0 =>
    let (w1, r1) := spanWs r0
    match amountPart r1 with
    | none => none
    | some (a1, r2) =>
      let rangeTry : Option (List Char) :=
        let (w2, r3) := spanWs r2
        match r3 with
        | '-' :: r4 =>
          let (w3, r5) := spanWs r4
          let (dol, r6) :=
            match r5 with
            | '$' :: rr => (['$'], rr)
            | _ => (([] : List Char), r5)
          let (w4, r7) := spanWs r6
          match amountPart r7 with
          | some (a2, _) => some (w2 ++ ['-'] ++ w3 ++ dol ++ w4 ++ a2)
          | none => none
        | _ => none
      match rangeTry with
      | some rng => some ('$' :: (w1 ++ a1 ++ rng))
      | none => some ('$' :: (w1 ++ a1))
  | _ => none

/-- Trailing unit of budget pattern 2, `(?:dollars?|usd|\$)`, in alternation
order with the greedy optional `s`. -/
def b2Tail (l : List Char) : Option (List Char) :=
  if startsWithCL "dollars".data l then some "dollars".data
  else if startsWithCL "dollar".data l then some "dollar".data
  else if startsWithCL "usd".data l then some "usd".data
  else if startsWithCL "$".data l then some "$".data
  else none

/-- One position of budget pattern 2,
`r'\d+(?:,\d{3})*(?:\.\d{2})?\s*(?:dollars?|usd|\$)'`. -/
def b2At (s : List Char) : Option (List Char) :=
  match amountPart s with
  | none => none
  | some (a, r) =>
    let (w, r2) := spanWs r
    match b2Tail r2 with
    | some tl => some (a ++ w ++ tl)
    | none => none

/-- Leading qualifier of budget pattern 3, `(?:up to|around|about|approximately)`. -/
def b3Tok (s : List Char) : Option (List Char × List Char) :=
  if startsWithCL "up to".data s then some ("up to".data, s.drop 5)
  else if startsWithCL "around".data s then some ("around".data, s.drop 6)
  else if startsWithCL "about".data s then some ("about".data, s.drop 5)
  else if startsWithCL "approximately".data s then some ("approximately".data, s.drop 13)
  else none

/-- One position of budget pattern 3,
`r'(?:up to|around|about|approximately)\s*\$?\s*\d+(?:,\d{3})*'`. -/
def b3At (s : List Char) : Option (List Char) :=
  match b3Tok s with
  | none => none
  | some (tok, r0) =>
    let (w1, r1) := spanWs r0
    let (dol, r2) :=
      match r1 with
      | '$' :: rr => (['$'], rr)
      | _ => (([] : List Char), r1)
    let (w2, r3) := spanWs r2
    let (ds, r4) := spanDigits r3
    if ds.isEmpty then none
    else
      let (g, _) := commaGroups r4
      some (tok ++ w1 ++ dol ++ w2 ++ ds ++ g)

/-- `re.search`'s position-by-position scan for a matcher returning the
matched text. -/
def findAt (f : List Char → Option (List Char)) : List Char → Option (List Char)
  | [] => none
  | c :: t =>
    match f (c :: t) with
    | some r => some r
    | none => findAt f t

/-- `EntityExtractor.extract_budget`. -/
def extract_budget (message : String) : Option String :=
  let s := (strLower message).data
  match findAt b1At s with
  | some m => some (String.mk m)
  | none =>
    match findAt b2At s with
    | some m => some (String.mk m)
    | none =>
      match findAt b3At s with
      | some m => some (String.mk m)
      | none => none

/-! ## NLU — entity extraction: service preference -/

/-- The `SYNONYMS` table of `extract_service_preference`. -/
def SYNONYMS : List (String × List String) := [
  ("admin", ["administration", "administrative", "admin support"]),
  ("social", ["social media", "sm", "social marketing"]),
  ("content", ["content creation", "content writing", "copywriting"]),
  ("virtual", ["va", "virtual assistant", "assistant"])
]

/-- `len(msg_words & name_words)` — distinct shared `\w+` tokens between the
(deduplicated) message tokens and a service name. -/
def svcOverlap (msg_words : List String) (name : String) : Nat :=
  let name_words := wordTokens (strLower name)
  msg_words.countP (fun w => name_words.contains w)

/-- One iteration of the word-overlap loop of `extract_service_preference`:
replace the best candidate only on a strictly larger overlap (`None` stands
for the initial `(None, None, 0)`). -/
def bestStep (msg_words : List String)
    (best : Option (String × String × Nat)) (p : String × String) :
    Option (String × String × Nat) :=
  let overlap := svcOverlap msg_words p.2
  match best with
  | none => if overlap > 0 then some (p.1, p.2, overlap) else none
  | some (_, _, c) => if overlap > c then some (p.1, p.2, overlap) else best

/-- The overlap count a candidate accumulator stands for (`best_match[2]`,
with the initial `(None, None, 0)` counting as 0). -/
def accCount : Option (String × String × Nat) → Nat
  | none => 0
  | some (_, _, c) => c

/-- The word-overlap loop of `extract_service_preference`: start from
`(None, None, 0)` and replace the best candidate only on a strictly larger
overlap, so the first entry attaining the maximum is kept. -/
def bestOverlapFold (services : List (String × String))
    (msg_words : List String) : Option (String × String × Nat) :=
  services.foldl (bestStep msg_words) none

/-- Resolution steps (a)–(d) of `extract_service_preference`: exact id,
exact case-insensitive name, synonym-to-family, substring either way. -/
def svcStepsAD (msg_norm : String) (services : List (String × String)) :
    Option (String × String) :=
  match services.find? (fun p => p.1 == msg_norm) with
  | some p => some p
  | none =>
  match services.find? (fun p => strLower p.2 == msg_norm) with
  | some p => some p
  | none =>
  match SYNONYMS.findSome? (fun kv =>
      kv.2.findSome? (fun syn =>
        if containsSub msg_norm syn then
          services.findSome? (fun p =>
            if containsSub (strLower p.2) kv.1 then some p else none)
        else none)) with
  | some p => some p
  | none =>
    services.find? (fun p =>
      containsSub msg_norm (strLower p.2) || containsSub (strLower p.2) msg_norm)

/-- `EntityExtractor.extract_service_preference`. -/
def extract_service_preference (message : String)
    (services : List (String × String)) : Option String × Option String :=
  let msg_norm := strLower (strTrim message)
  match svcStepsAD msg_norm services with
  | some p => (some p.1, some p.2)
  | none =>
    let msg_words := (wordTokens msg_norm).dedup
    match bestOverlapFold services msg_words with
    | some (k, n, c) => if c ≥ 2 then (some k, some n) else (none, none)
    | none => (none, none)

/-! ## Session management -/

/-- The session map of `SessionManager` as an association list. -/
abbrev Store := List (String × UserSession)

/-- `SessionManager.__init__`'s `session_timeout` default (minutes). -/
def session_timeout : Nat := 30

/-- `self._sessions.get(user_id)`. -/
def storeGet (st : Store) (uid : String) : Option UserSession :=
  (st.find? (fun p => p.1 == uid)).map (fun p => p.2)

/-- `self._sessions[user_id] = session`. -/
def storeSet : Store → String → UserSession → Store
  | [], uid, s => [(uid, s)]
  | (k, v) :: t, uid, s =>
    if k == uid then (k, s) :: t else (k, v) :: storeSet t uid s

/-- `SessionManager.get_or_create`. -/
def get_or_create (st : Store) (uid : String) (now : Nat) : UserSession × Store :=
  match storeGet st uid with
  | some session =>
    if session.is_session_expired now session_timeout then
      let fresh := UserSession.new uid now
      (fresh, storeSet st uid fresh)
    else (session, st)
  | none =>
    let fresh := UserSession.new uid now
    (fresh, storeSet st uid fresh)

/-! ## Response generation -/

/-- `ResponseGenerator.generate_empathetic_response`. -/
def generate_empathetic_response (sentiment : SentimentScore)
    (base_message : String) : String :=
  let p :=
    if sentiment = .VERY_NEGATIVE then "I understand your frustration. "
    else if sentiment = .NEGATIVE then "I hear you. "
    else if sentiment = .VERY_POSITIVE then "I'm so glad to hear that! "
    else if sentiment = .POSITIVE then "Great! "
    else ""
  p ++ base_message

/-- `re.sub(r'(Great!|Perfect!|Awesome!)\s*', '', message)` of the
`"concise"` style: drop each occurrence together with the following
whitespace, scanning left to right. -/
def conciseSub : List Char → List Char
  | [] => []
  | c :: t =>
    if startsWithCL "Great!".data (c :: t) then
      conciseSub ((List.drop 5 t).dropWhile Char.isWhitespace)
    else if startsWithCL "Perfect!".data (c :: t) then
      conciseSub ((List.drop 7 t).dropWhile Char.isWhitespace)
    else if startsWithCL "Awesome!".data (c :: t) then
      conciseSub ((List.drop 7 t).dropWhile Char.isWhitespace)
    else c :: conciseSub t
  termination_by l => l.length
  decreasing_by
    all_goals
      have hdw : ∀ l : List Char, (l.dropWhile Char.isWhitespace).length ≤ l.length := by
        intro l
        induction l with
        | nil => simp [List.dropWhile]
        | cons a l ih =>
          rw [List.dropWhile_cons]
          split
          · exact Nat.le_succ_of_le ih
          · simp
      simp only [List.length_cons]
    · have h1 := hdw (List.drop 5 t)
      have h2 := List.length_drop 5 t
      omega
    · have h1 := hdw (List.drop 7 t)
      have h2 := List.length_drop 7 t
      omega
    · have h1 := hdw (List.drop 7 t)
      have h2 := List.length_drop 7 t
      omega
    · omega

/-- `ResponseGenerator.format_for_style`. -/
def format_for_style (message : String) (style : String) : String :=
  if style == "casual" then
    let m := strTrim (replaceAll message "Please" "")
    replaceAll m "Thank you" "Thanks"
  else if style == "concise" then
    String.mk (conciseSub message.data)
  else message

/-! ## State handlers

Each handler of the source mutates the session it receives and returns
`(reply, next_state)`; here it returns the updated session as well. `now`
stands for the `datetime.now()` a nested `reset()` would read. -/

/-- A handler's reply, next state, and updated session. -/
structure HandlerResult where
  reply : String
  next : ConversationState
  session : UserSession
  deriving DecidableEq

/-- `StateHandler.handle_human_request`. -/
def handle_human_request (session : UserSession) : HandlerResult :=
  { reply :=
      "ðŸ¤ I'll connect you with our team!\n\n" ++
      "A team member will reach out to you shortly via this number.\n" ++
      "Typical response time: 2-4 hours during business hours.\n\n" ++
      "In the meantime, would you like me to continue helping you, " ++
      "or would you prefer to wait for human assistance?",
    next := .HUMAN_HANDOFF,
    session := session }

/-- `ServiceSelectionHandler.handle`. The source wraps
`format_service_detail` in `try/except`; the embedded formatter is total, so
the `except` branch is unreachable and omitted. -/
def ServiceSelectionHandler.handle (now : Nat) (session : UserSession)
    (message : String) (intent : Intent) : HandlerResult :=
  if intent = .HUMAN_REQUEST then handle_human_request session
  else if intent = .RESTART then
    { reply := format_services_menu, next := .SERVICE_SELECTION,
      session := session.reset now }
  else
    match extract_service_preference message SERVICES with
    | (some key, some name) =>
      let session :=
        { session with
            service := some name,
            service_key := some key,
            context := session.context.addTopic name }
      { reply := format_service_detail name, next := .SERVICE_DETAIL,
        session := session }
    | _ =>
      let session :=
        { session with context :=
            { session.context with clarification_attempts :=
                session.context.clarification_attempts + 1 } }
      let response :=
        if session.context.clarification_attempts = 1 then
          "âš ï¸ I didn't quite catch which service you'd like.\n\n" ++
          "Type the *number* or *name* from the menu, like '1' or 'Admin Support'."
        else if session.context.clarification_attempts = 2 then
          "Let me show you the menu again:\n\n" ++
          format_services_menu ++
          "\n\nJust reply with the number (like 1, 2, or 3)."
        else
          "I'm having trouble understanding which service you need.\n\n" ++
          "Would you like to speak with a team member? Reply *YES* for human help, " ++
          "or try selecting a service number from the menu."
      { reply := response, next := .SERVICE_SELECTION, session := session }

/-- `ServiceDetailHandler.handle`. -/
def ServiceDetailHandler.handle (_now : Nat) (session : UserSession)
    (_message : String) (intent : Intent) : HandlerResult :=
  if intent = .CONFIRMATION then
    let session :=
      { session with context :=
          { session.context with clarification_attempts := 0 } }
    { reply :=
        "Great choice! ðŸŽ¯\n\n" ++
        "How many *hours per week* would you like for this service?\n" ++
        "(Please provide a number between 1-40 hours)",
      next := .HOURS_COLLECTION, session := session }
  else if intent = .REJECTION then
    let session := { session with service := none, service_key := none }
    { reply :=
        "No problem! Let's choose a different service.\n\n" ++
        format_services_menu,
      next := .SERVICE_SELECTION, session := session }
  else
    { reply :=
        "Please reply:\n" ++
        "â€¢ *YES* to proceed with this service\n" ++
        "â€¢ *NO* to choose a different service",
      next := .SERVICE_DETAIL, session := session }

/-- `HoursCollectionHandler.handle`. (`if hours:` in the source is `None`- or
zero-falsy; an extracted value is always in `[1, 168]`, so it matches the
`some` test.) -/
def HoursCollectionHandler.handle (_now : Nat) (session : UserSession)
    (message : String) (_intent : Intent) : HandlerResult :=
  match extract_hours message with
  | some hours =>
    let session :=
      { session with
          hours_per_week := some hours,
          context := { session.context with clarification_attempts := 0 } }
    { reply :=
        "Perfect! " ++ toString hours ++ " hours per week noted. âœ…\n\n" ++
        "What *type of business* do you run?\n" ++
        "(e.g., E-commerce, Coaching, SaaS, Local Business, Agency)",
      next := .BUSINESS_TYPE, session := session }
  | none =>
    let session :=
      { session with context :=
          { session.context with clarification_attempts :=
              session.context.clarification_attempts + 1 } }
    let response :=
      if session.context.clarification_attempts > 2 then
        "I'm having trouble understanding the hours you need.\n\n" ++
        "Let me ask differently: Do you need:\n" ++
        "â€¢ Part-time support (5-20 hours/week)?\n" ++
        "â€¢ Full-time support (30-40 hours/week)?\n" ++
        "â€¢ Just a few hours (1-10 hours/week)?"
      else
        "âš ï¸ Please provide a valid number of hours.\n\n" ++
        "Example: Type '10' for 10 hours per week\n" ++
        "(Between 1-40 hours recommended)"
    { reply := response, next := .HOURS_COLLECTION, session := session }

/-- `BusinessTypeHandler.handle`. -/
def BusinessTypeHandler.handle (_now : Nat) (session : UserSession)
    (message : String) (_intent : Intent) : HandlerResult :=
  if (strTrim message).length < 2 then
    { reply :=
        "âš ï¸ Please tell me about your business.\n\n" ++
        "Examples: E-commerce Store, Coaching Business, SaaS Company, Local Retail",
      next := .BUSINESS_TYPE, session := session }
  else
    let session :=
      { session with
          business_type := some (strTrim message),
          context := { session.context with clarification_attempts := 0 } }
    { reply :=
        "Got it - " ++ message ++ "! ðŸ’¼\n\n" ++
        "What is your *monthly budget* for this service?\n" ++
        "(e.g., $500-$1000, $2000+, or just type an amount)",
      next := .BUDGET_COLLECTION, session := session }

/-- Python's `str(...)` of an optional string slot (`None` prints as such). -/
def pyOptStr : Option String → String
  | some s => s
  | none => "None"

/-- Python's `str(...)` of an optional integer slot. -/
def pyOptNat : Option Nat → String
  | some n => toString n
  | none => "None"

/-- The mojibake horizontal bar of the booking summary (16 repetitions). -/
def summaryBar : String :=
  "â”â”â”â”â”â”â”â”" ++
  "â”â”â”â”â”â”â”â”"

/-- `BudgetCollectionHandler.handle`. `if not budget` in the source is the
`None` test (a regex match is never the empty string), and the free-form
fallback stores `message.strip()` when it has at least two characters. -/
def BudgetCollectionHandler.handle (_now : Nat) (session : UserSession)
    (message : String) (_intent : Intent) : HandlerResult :=
  let budget0 := extract_budget message
  let budget :=
    match budget0 with
    | none => if (strTrim message).length ≥ 2 then some (strTrim message) else none
    | some b => some b
  match budget with
  | some b =>
    let session :=
      { session with
          budget := some b,
          context := { session.context with clarification_attempts := 0 } }
    let summary :=
      "ðŸ“‹ *Booking Summary*\n" ++
      summaryBar ++ "\n" ++
      "Service: *" ++ pyOptStr session.service ++ "*\n" ++
      "Hours/Week: *" ++ pyOptNat session.hours_per_week ++ "*\n" ++
      "Business: *" ++ pyOptStr session.business_type ++ "*\n" ++
      "Budget: *" ++ pyOptStr session.budget ++ "*\n" ++
      summaryBar ++ "\n\n" ++
      "Does everything look correct?\n" ++
      "Reply *YES* to confirm and get your booking link."
    { reply := summary, next := .CONFIRMATION, session := session }
  | none =>
    { reply :=
        "âš ï¸ Please provide your budget range.\n\n" ++
        "Examples:\n" ++
        "â€¢ $500-$1000\n" ++
        "â€¢ Around $2000/month\n" ++
        "â€¢ Up to $5000",
      next := .BUDGET_COLLECTION, session := session }

/-- `ConfirmationHandler.handle`. -/
def ConfirmationHandler.handle (now : Nat) (session : UserSession)
    (_message : String) (intent : Intent) : HandlerResult :=
  if intent = .CONFIRMATION then
    { reply :=
        "ðŸŽ‰ *Perfect! You're all set!*\n\n" ++
        "ðŸ“… Book your discovery call here:\nðŸ‘‰ " ++
        BOOKING_LINK ++ "\n\n" ++
        "ðŸ“± *What happens next?*\n" ++
        "1. Schedule your call using the link above\n" ++
        "2. We'll discuss your needs in detail\n" ++
        "3. Get a customized proposal\n\n" ++
        "Need to speak with someone now? Just reply and our team will follow up!\n\n" ++
        "Type *MENU* anytime to start over.",
      next := .COMPLETED, session := session }
  else if intent = .REJECTION then
    { reply :=
        "No worries! I've cleared your information. ðŸ”„\n\n" ++
        format_services_menu,
      next := .SERVICE_SELECTION, session := session.reset now }
  else
    { reply :=
        "Please reply:\n" ++
        "â€¢ *YES* to confirm and receive booking link\n" ++
        "â€¢ *NO* to start over",
      next := .CONFIRMATION, session := session }

/-- The `self.handlers` dispatch table of `ConversationManager`. -/
def handlerFor (state : ConversationState) :
    Option (Nat → UserSession → String → Intent → HandlerResult) :=
  match state with
  | .SERVICE_SELECTION => some ServiceSelectionHandler.handle
  | .SERVICE_DETAIL => some ServiceDetailHandler.handle
  | .HOURS_COLLECTION => some HoursCollectionHandler.handle
  | .BUSINESS_TYPE => some BusinessTypeHandler.handle
  | .BUDGET_COLLECTION => some BudgetCollectionHandler.handle
  | .CONFIRMATION => some ConfirmationHandler.handle
  | _ => none

/-! ## Conversation manager -/

/-- The unknown-state fallback reply: the warning banner plus the menu
(`"âš  ï¸ Something went wrong. Let's start fresh."` in the mojibake of the
source file). -/
def wentWrongReply : String :=
  "âš ï¸ Something went wrong. Let's start fresh.\n\n" ++ format_services_menu

/-- The fixed acknowledgement of the `"thank"` interceptor branch. -/
def thankReply : String :=
  "You're very welcome! ðŸ˜Š\n\n" ++
  "Need anything else? Type *MENU* to see options."

/-- Body of `_handle_global_commands` over the pre-computed
`msg_low = message.lower().strip()`. -/
def gcBody (msg_low : String) (message : String) (session : UserSession)
    (intent : Intent) : Option String × UserSession :=
  if intent = .GREETING then
    (some ("ðŸ‘‹ Welcome! I'm your Virtual Assistant.\n\n" ++
       format_services_menu),
     { session with state := .SERVICE_SELECTION })
  else if containsSub msg_low "menu" || containsSub msg_low "services" then
    (some format_services_menu, { session with state := .SERVICE_SELECTION })
  else if containsSub msg_low "thank" then
    (some thankReply, session)
  else
    match FAQS.findSome? (fun kv =>
        if containsSub msg_low kv.1 then some kv.2 else none) with
    | some faq_answer =>
      (some faq_answer,
       { session with context :=
           session.context.add_message "user" message (some Intent.FAQ) })
    | none =>
      if session.context.is_frustrated then
        (some ("I sense you might be frustrated. I'm here to help! ðŸ¤\n\n" ++
           "Would you like to:\n" ++
           "â€¢ Speak with a team member? (Reply *HUMAN*)\n" ++
           "â€¢ Start fresh? (Reply *RESTART*)\n" ++
           "â€¢ See the menu again? (Reply *MENU*)"),
         session)
      else (none, session)

/-- `ConversationManager._handle_global_commands`: optional short-circuit
reply plus the (possibly mutated) session. -/
def handle_global_commands (message : String) (session : UserSession)
    (intent : Intent) : Option String × UserSession :=
  gcBody (strTrim (strLower message)) message session intent

/-- `ConversationManager._analyze_and_log`. -/
def analyze_and_log (session : UserSession) (message : String)
    (intent : Intent) : UserSession :=
  let sentiment := analyze message
  { session with context :=
      ((session.context.add_sentiment sentiment.value).add_message
        "user" message (some intent)) }

/-- `session.context.add_message("assistant", response)`. -/
def addAssistant (session : UserSession) (response : String) : UserSession :=
  { session with context := session.context.add_message "assistant" response none }

/-- The body of `ConversationManager.handle_message` after the empty-message
check, acting on the fetched session (source lines: timestamp bump,
classification, logging, interception, the `COMPLETED` / `HUMAN_HANDOFF`
special cases, handler dispatch with personalization, and the unknown-state
fallback). -/
def handle_message_body (now : Nat) (message : String)
    (session0 : UserSession) : String × UserSession :=
  let session := session0.update_timestamp now
  let intent := classify message session.context
  let session := analyze_and_log session message intent
  match handle_global_commands message session intent with
  | (some global_response, session) =>
    (global_response, addAssistant session global_response)
  | (none, session) =>
    if session.state = .COMPLETED then
      if intent = .RESTART || containsSub (strLower message) "menu" then
        let session := session.reset now
        (format_services_menu, addAssistant session format_services_menu)
      else
        let response :=
          "Your booking is complete! âœ…\n\n" ++
          "Booking link: " ++ BOOKING_LINK ++ "\n\n" ++
          "Type *MENU* to start a new request."
        (response, addAssistant session response)
    else if session.state = .HUMAN_HANDOFF then
      if intent = .CONFIRMATION then
        let response :=
          "Perfect! ðŸ‘¤\n\n" ++
          "Our team has been notified and will reach out shortly.\n" ++
          "You'll receive a message within 2-4 business hours.\n\n" ++
          "Feel free to close this chat. We'll contact you soon!"
        (response, addAssistant session response)
      else
        let session := { session with state := .SERVICE_SELECTION }
        let response :=
          "Great! Let me help you right now. ðŸ˜Š\n\n" ++
          format_services_menu
        (response, addAssistant session response)
    else
      match handlerFor session.state with
      | some handler =>
        let hr := handler now session message intent
        let sentiment := (hr.session.context.sentiment_scores.getLast?).getD 0
        let sentiment_enum := sentimentOfValue sentiment
        let response :=
          if sentiment < 0 then
            generate_empathetic_response sentiment_enum hr.reply
          else hr.reply
        let response :=
          format_for_style response hr.session.preferred_response_style
        let session := { hr.session with state := hr.next }
        (response, addAssistant session response)
      | none =>
        let session := session.reset now
        (wentWrongReply, addAssistant session wentWrongReply)

/-- `ConversationManager.handle_message` (the non-raising path; the
`except` ladder is modelled by `handle_message_recover` below). -/
def handle_message (st : Store) (now : Nat) (user_id message : String) :
    String × Store :=
  let message := strTrim message
  if message.data.isEmpty then
    ("Please send a message to continue. Type *MENU* for options.", st)
  else
    let (session, st) := get_or_create st user_id now
    let (reply, session) := handle_message_body now message session
    (reply, storeSet st user_id session)

/-- The fixed safe apology of the innermost `except` branch. -/
def apologyReply : String :=
  "âš ï¸ I encountered an error. Please try again.\n" ++
  "Type *MENU* to see options or reply *HUMAN* for assistance."

/-- The `try/except` ladder at the boundary of
`ConversationManager.handle_message`: exceptions are modelled by explicit
`Except`-valued outcomes of the protected body and of the `llm_fallback`
collaborator (an external network call). On a body fault the session's error
counter is incremented when the session exists, the fallback's text is
returned when it succeeds (recorded in the context with intent `UNKNOWN`),
and the fixed apology is returned when it fails too. -/
def handle_message_recover (st : Store) (user_id : String)
    (body : Except Unit (String × Store)) (llm : Except Unit String) :
    String × Store :=
  match body with
  | .ok res => res
  | .error _ =>
    let st :=
      match storeGet st user_id with
      | some s => storeSet st user_id s.increment_error
      | none => st
    match llm with
    | .ok llm_response =>
      let st :=
        match storeGet st user_id with
        | some s =>
          storeSet st user_id
            { s with context :=
                (s.context.add_message "assistant" llm_response
                  (some Intent.UNKNOWN)) }
        | none => st
      (llm_response, st)
    | .error _ => (apologyReply, st)

/-- `llm_fallback` of `app/ai.py` when no API token is configured (and on
every error path of the network call): the fixed fallback sentence. -/
def llm_fallback_default : String :=
  "Sorry, I didn’t understand that. Type *AGENT* to speak with Esther."

/-- Run a script of `(now, user_id, message)` events through
`handle_message`, starting from an empty store. -/
def runScript (steps : List (Nat × String × String)) : Store :=
  steps.foldl (fun st step => (handle_message st step.1 step.2.1 step.2.2).2) []

/-- Like `runScript`, also collecting the replies in order. -/
def runScriptR (steps : List (Nat × String × String)) : List String × Store :=
  steps.foldl
    (fun acc step =>
      let (reply, st) := handle_message acc.2 step.1 step.2.1 step.2.2
      (acc.1 ++ [reply], st))
    ([], [])

/-- `run` is a maximal digit run of `s` (an integer embedded in the text):
a non-empty all-digit segment whose neighbours, when present, are
non-digits. -/
def IsMaxDigitRun (s run : List Char) : Prop :=
  run ≠ [] ∧ run.all Char.isDigit = true ∧
  ∃ pre post, s = pre ++ run ++ post ∧
    (pre = [] ∨ ∃ p c, pre = p ++ [c] ∧ c.isDigit = false) ∧
    (post = [] ∨ ∃ c t, post = c :: t ∧ c.isDigit = false)

/-- The forward-flow slot invariant: in each collection state all slots
belonging to earlier stages of the flow are filled (service before
`SERVICE_DETAIL` and `HOURS_COLLECTION`, plus hours before `BUSINESS_TYPE`,
plus business before `BUDGET_COLLECTION`, all four in `CONFIRMATION`). -/
def SlotInv (s : UserSession) : Prop :=
  (s.state = ConversationState.SERVICE_DETAIL → s.service.isSome = true) ∧
  (s.state = ConversationState.HOURS_COLLECTION → s.service.isSome = true) ∧
  (s.state = ConversationState.BUSINESS_TYPE →
    s.service.isSome = true ∧ s.hours_per_week.isSome = true) ∧
  (s.state = ConversationState.BUDGET_COLLECTION →
    s.service.isSome = true ∧ s.hours_per_week.isSome = true ∧
      s.business_type.isSome = true) ∧
  (s.state = ConversationState.CONFIRMATION →
    s.service.isSome = true ∧ s.hours_per_week.isSome = true ∧
      s.business_type.isSome = true ∧ s.budget.isSome = true)

/-- Every session of the store satisfies the slot invariant. -/
def StoreInv (st : Store) : Prop :=
  ∀ p ∈ st, SlotInv p.2

/-- A script leading a session to hours = 10 with no service: complete the
flow up to `BUSINESS_TYPE`, escape with the global `"menu"` command (slots
are kept), re-select a service and reject it (only the service slot is
cleared). -/
def c9Steps : List (Nat × String × String) :=
  [(0, "U", "hi"), (0, "U", "1"), (0, "U", "yes"), (0, "U", "10"),
   (0, "U", "menu"), (0, "U", "1"), (0, "U", "no")]

/-- The message script of the end-to-end booking scenario for user `"U1"`. -/
def c1Steps : List (Nat × String × String) :=
  [(0, "U1", "hi"), (0, "U1", "1"), (0, "U1", "yes"), (0, "U1", "10"),
   (0, "U1", "Ecommerce"), (0, "U1", "$500"), (0, "U1", "yes")]

/-- Replies and final store of the end-to-end scenario. -/
def c1Result : List String × Store :=
  runScriptR c1Steps

/-- The session reached by the single greeting `"hi"` from user `"U"`
(used as a concrete instance of the slot invariant). -/
def c9wSession : UserSession :=
  (storeGet (runScript [(0, "U", "hi")]) "U").getD (UserSession.new "U" 0)

/-! ## Theorems -/

/-- Setting a key makes it readable: `storeGet` after `storeSet` on the same
user id yields the session just stored. -/
theorem storeGet_storeSet_self (st : Store) (uid : String) (s : UserSession) :
    storeGet (storeSet st uid s) uid = some s := by
  induction st with
  | nil => simp [storeSet, storeGet]
  | cons p t ih =>
    obtain ⟨k, v⟩ := p
    by_cases hk : k = uid
    · subst hk
      simp [storeSet, storeGet]
    · have hbeq : (k == uid) = false := by
        simp [hk]
      simp only [storeSet, hbeq, Bool.false_eq_true, if_false]
      simpa [storeGet, hbeq] using ih

/-- C1: feeding `["hi", "1", "yes", "10", "Ecommerce", "$500", "yes"]` to
`handle_message` against a fresh session for user `"U1"` ends with the
session in state `COMPLETED`, slots `service` = catalog id `"1"`'s display
name, `hours_per_week` = 10, `business_type` = `"Ecommerce"`,
`budget` = `"$500"`, and the reply to the final `"yes"` contains the booking
link. -/
theorem claim1_end_to_end :
    ((storeGet c1Result.2 "U1").map UserSession.state =
      some ConversationState.COMPLETED) ∧
    ((storeGet c1Result.2 "U1").map UserSession.service =
      some ((SERVICES.find? (fun p => p.1 == "1")).map Prod.snd)) ∧
    ((storeGet c1Result.2 "U1").map UserSession.hours_per_week =
      some (some 10)) ∧
    ((storeGet c1Result.2 "U1").map UserSession.business_type =
      some (some "Ecommerce")) ∧
    ((storeGet c1Result.2 "U1").map UserSession.budget =
      some (some "$500")) ∧
    (containsSub (c1Result.1.getLast?.getD "") BOOKING_LINK = true) := by
  decide

/-- C6: `get_or_create` on a stored session older than the timeout replaces
it with a brand-new session under the same id (initial state, empty slots,
fresh context); on one younger than the timeout it returns that session and
leaves the store unchanged. -/
theorem claim6_session_expiry (st : Store) (uid : String) (s : UserSession)
    (now : Nat) (hget : storeGet st uid = some s) :
    ((UserSession.new uid now).state = ConversationState.INITIAL ∧
     (UserSession.new uid now).service = none ∧
     (UserSession.new uid now).service_key = none ∧
     (UserSession.new uid now).hours_per_week = none ∧
     (UserSession.new uid now).business_type = none ∧
     (UserSession.new uid now).budget = none ∧
     (UserSession.new uid now).context = {}) ∧
    (s.is_session_expired now session_timeout = true →
      get_or_create st uid now =
        (UserSession.new uid now, storeSet st uid (UserSession.new uid now))) ∧
    (s.is_session_expired now session_timeout = false →
      get_or_create st uid now = (s, st)) := by
  refine ⟨⟨rfl, rfl, rfl, rfl, rfl, rfl, rfl⟩, ?_, ?_⟩
  · intro hexp
    simp [get_or_create, hget, hexp]
  · intro hexp
    simp [get_or_create, hget, hexp]

/-- Witness for C6 at a concrete store: a session last active at minute 0 is
replaced when touched at minute 31 and reused unchanged at minute 30. -/
theorem claim6_witness :
    (get_or_create [("u", UserSession.new "u" 0)] "u" 31 =
      (UserSession.new "u" 31,
        storeSet [("u", UserSession.new "u" 0)] "u" (UserSession.new "u" 31))) ∧
    (get_or_create [("u", UserSession.new "u" 0)] "u" 30 =
      (UserSession.new "u" 0, [("u", UserSession.new "u" 0)])) :=
  ⟨(claim6_session_expiry [("u", UserSession.new "u" 0)] "u"
      (UserSession.new "u" 0) 31 (by decide)).2.1 (by decide),
   (claim6_session_expiry [("u", UserSession.new "u" 0)] "u"
      (UserSession.new "u" 0) 30 (by decide)).2.2 (by decide)⟩

/-- C7: message handling always yields a string reply; a fault of the
protected body is caught once at the orchestrator boundary, increments the
session's error counter when the session exists, returns the generative-text
fallback's reply when that collaborator succeeds, and the fixed safe apology
when it fails as well. Faults of the body and of the collaborator are
modelled by explicit `Except` outcomes. -/
theorem claim7_error_recovery (st : Store) (uid : String) (now : Nat)
    (user message : String) (res : String × Store) (llm : Except Unit String)
    (t : String) :
    (∃ reply st2, handle_message st now user message = (reply, st2)) ∧
    (handle_message_recover st uid (.ok res) llm = res) ∧
    ((handle_message_recover st uid (.error ()) (.ok t)).1 = t) ∧
    ((handle_message_recover st uid (.error ()) (.error ())).1 = apologyReply) ∧
    (∀ s, storeGet st uid = some s →
      ∀ b : Except Unit String,
        (storeGet (handle_message_recover st uid (.error ()) b).2 uid).map
          UserSession.error_count = some (s.error_count + 1)) := by
  refine ⟨⟨_, _, rfl⟩, rfl, ?_, ?_, ?_⟩
  · simp [handle_message_recover]
  · simp [handle_message_recover]
  · intro s hs b
    cases b with
    | error e =>
      simp [handle_message_recover, hs, storeGet_storeSet_self,
        UserSession.increment_error]
    | ok t2 =>
      simp [handle_message_recover, hs, storeGet_storeSet_self,
        UserSession.increment_error]

/-- Witness for C7: the recovery ladder at a concrete store, with a faulting
body and both collaborator outcomes. -/
theorem claim7_witness :
    ((handle_message_recover [("u", UserSession.new "u" 0)] "u"
        (.error ()) (.error ())).1 = apologyReply) ∧
    ((storeGet (handle_message_recover [("u", UserSession.new "u" 0)] "u"
        (.error ()) (.error ())).2 "u").map UserSession.error_count = some 1) :=
  ⟨(claim7_error_recovery [("u", UserSession.new "u" 0)] "u" 0 "u" "m"
      ("", []) (.error ()) "t").2.2.2.1,
   (claim7_error_recovery [("u", UserSession.new "u" 0)] "u" 0 "u" "m"
      ("", []) (.error ()) "t").2.2.2.2 (UserSession.new "u" 0) (by decide)
      (.error ())⟩

/-- A session in state `SERVICE_DETAIL` used to refute the universal
human-request handling of C2. -/
def c2Session : UserSession :=
  { UserSession.new "U1" 0 with
      state := .SERVICE_DETAIL,
      service := some "Administrative Support",
      service_key := some "1" }

/-- C2, counterexample: `"agent"` classifies as `HUMAN_REQUEST`, the state
`SERVICE_DETAIL` has a registered handler, yet that handler answers the
intent with next state `SERVICE_DETAIL` (the YES/NO re-prompt), not
`HUMAN_HANDOFF`. -/
theorem claim2_counterexample :
    classify "agent" c2Session.context = Intent.HUMAN_REQUEST ∧
    (handlerFor ConversationState.SERVICE_DETAIL).isSome = true ∧
    (ServiceDetailHandler.handle 0 c2Session "agent"
      Intent.HUMAN_REQUEST).next = ConversationState.SERVICE_DETAIL ∧
    ConversationState.SERVICE_DETAIL ≠ ConversationState.HUMAN_HANDOFF := by
  refine ⟨by decide, rfl, by decide, by decide⟩

/-- C2 as amended: only `ServiceSelectionHandler` routes a `HumanRequest`
intent to `HumanHandoff` (with the fixed acknowledgement and an unchanged
session); the five other registered handlers never return `HumanHandoff`
for any intent, handling the message by their regular logic instead. -/
theorem claim2_amended :
    (∀ (now : Nat) (s : UserSession) (m : String),
      ServiceSelectionHandler.handle now s m Intent.HUMAN_REQUEST =
        handle_human_request s ∧
      (handle_human_request s).next = ConversationState.HUMAN_HANDOFF ∧
      (handle_human_request s).session = s) ∧
    (∀ (now : Nat) (s : UserSession) (m : String) (i : Intent),
      (ServiceDetailHandler.handle now s m i).next ≠
        ConversationState.HUMAN_HANDOFF ∧
      (HoursCollectionHandler.handle now s m i).next ≠
        ConversationState.HUMAN_HANDOFF ∧
      (BusinessTypeHandler.handle now s m i).next ≠
        ConversationState.HUMAN_HANDOFF ∧
      (BudgetCollectionHandler.handle now s m i).next ≠
        ConversationState.HUMAN_HANDOFF ∧
      (ConfirmationHandler.handle now s m i).next ≠
        ConversationState.HUMAN_HANDOFF) := by
  constructor
  · intro now s m
    refine ⟨by simp [ServiceSelectionHandler.handle], rfl, rfl⟩
  · intro now s m i
    refine ⟨?_, ?_, ?_, ?_, ?_⟩
    · unfold ServiceDetailHandler.handle
      repeat' split
      all_goals simp
    · unfold HoursCollectionHandler.handle
      repeat' split
      all_goals simp
    · unfold BusinessTypeHandler.handle
      repeat' split
      all_goals simp
    · unfold BudgetCollectionHandler.handle
      cases hb : extract_budget m <;> simp only [hb] <;> repeat' split
      all_goals simp
    · unfold ConfirmationHandler.handle
      repeat' split
      all_goals simp

/-- When a pattern rule fires, `classify` returns exactly the intent that
the priority scan selected. -/
theorem classify_ruleFirstMatch (m : String) (ctx : ConversationContext)
    (i : Intent) (h : ruleFirstMatch (normMsg m) = some i) :
    classify m ctx = i := by
  simp only [classify, h]

/-- C3: `classify` evaluates the rules in the fixed order Greeting, Restart,
Confirmation, Rejection, HumanRequest, Help, Faq, Complaint and returns the
first intent whose patterns match; in particular any message matching both a
greeting word and a rejection word classifies as `GREETING`, never
`REJECTION`. -/
theorem claim3_priority_order :
    (intentRules.map Prod.fst =
      [Intent.GREETING, Intent.RESTART, Intent.CONFIRMATION, Intent.REJECTION,
       Intent.HUMAN_REQUEST, Intent.HELP, Intent.FAQ, Intent.COMPLAINT]) ∧
    (∀ (m : String) (ctx : ConversationContext) (i : Intent),
      ruleFirstMatch (normMsg m) = some i → classify m ctx = i) ∧
    (∀ (m : String) (ctx : ConversationContext),
      patternMatches greetingAlts (normMsg m) = true →
      patternMatches rejectionAlts (normMsg m) = true →
      classify m ctx = Intent.GREETING ∧
        classify m ctx ≠ Intent.REJECTION) := by
  refine ⟨rfl, classify_ruleFirstMatch, ?_⟩
  intro m ctx hg _hr
  have hfirst : ruleFirstMatch (normMsg m) = some Intent.GREETING := by
    simp [ruleFirstMatch, intentRules, hg]
  have hc := classify_ruleFirstMatch m ctx Intent.GREETING hfirst
  exact ⟨hc, by rw [hc]; decide⟩

/-- Witness for C3 at `"hello, no thanks"`: a greeting word and a rejection
word are both present and the classification is `GREETING`. -/
theorem claim3_witness :
    classify "hello, no thanks" ({} : ConversationContext) = Intent.GREETING ∧
    classify "hello, no thanks" ({} : ConversationContext) ≠ Intent.REJECTION :=
  claim3_priority_order.2.2 "hello, no thanks" {} (by decide) (by decide)

/-- `"thank you"` matches no pattern rule and, having two tokens and no
digit, falls through every context rule to `UNKNOWN` — for any context. -/
theorem classify_thank_you (ctx : ConversationContext) :
    classify "thank you" ctx = Intent.UNKNOWN := by
  unfold classify
  rw [show ruleFirstMatch (normMsg "thank you") = none from by decide]
  cases (ctx.get_recent_intents 2).contains Intent.REJECTION <;> decide

/-- The global interceptor answers a `"thank you"` message (classified
`UNKNOWN`) with the fixed acknowledgement and no session change: the
greeting branch does not fire, `"menu"`/`"services"` are not substrings,
and `"thank"` is. -/
theorem global_thank (s : UserSession) :
    handle_global_commands "thank you" s Intent.UNKNOWN = (some thankReply, s) := by
  unfold handle_global_commands gcBody
  rw [show containsSub (strTrim (strLower "thank you")) "menu" = false from by decide]
  rw [show containsSub (strTrim (strLower "thank you")) "services" = false from by decide]
  rw [show containsSub (strTrim (strLower "thank you")) "thank" = true from by decide]
  simp

/-- One `handle_message_body` step on `"thank you"`: the reply is the fixed
acknowledgement and the session keeps its state and every slot (only the
activity metadata and context history change). -/
theorem thank_step (s : UserSession) (now : Nat) :
    (handle_message_body now "thank you" s).1 = thankReply ∧
    (handle_message_body now "thank you" s).2.state = s.state ∧
    (handle_message_body now "thank you" s).2.service = s.service ∧
    (handle_message_body now "thank you" s).2.hours_per_week = s.hours_per_week ∧
    (handle_message_body now "thank you" s).2.business_type = s.business_type ∧
    (handle_message_body now "thank you" s).2.budget = s.budget := by
  simp only [handle_message_body, classify_thank_you, global_thank]
  simp [addAssistant, analyze_and_log, UserSession.update_timestamp]

/-- C8: two consecutive `handle_message` passes on the same `"thank you"`
message return the identical fixed acknowledgement both times and leave the
session's state field and all four slot fields untouched. -/
theorem claim8_thank_idempotent (s : UserSession) (n1 n2 : Nat) :
    (handle_message_body n1 "thank you" s).1 = thankReply ∧
    (handle_message_body n2 "thank you"
      (handle_message_body n1 "thank you" s).2).1 = thankReply ∧
    ((handle_message_body n2 "thank you"
        (handle_message_body n1 "thank you" s).2).2.state = s.state ∧
     (handle_message_body n2 "thank you"
        (handle_message_body n1 "thank you" s).2).2.service = s.service ∧
     (handle_message_body n2 "thank you"
        (handle_message_body n1 "thank you" s).2).2.hours_per_week =
          s.hours_per_week ∧
     (handle_message_body n2 "thank you"
        (handle_message_body n1 "thank you" s).2).2.business_type =
          s.business_type ∧
     (handle_message_body n2 "thank you"
        (handle_message_body n1 "thank you" s).2).2.budget = s.budget) := by
  obtain ⟨h1, hst1, hsv1, hh1, hbt1, hbu1⟩ := thank_step s n1
  obtain ⟨h2, hst2, hsv2, hh2, hbt2, hbu2⟩ :=
    thank_step ((handle_message_body n1 "thank you" s).2) n2
  refine ⟨h1, h2, ?_, ?_, ?_, ?_, ?_⟩
  · rw [hst2, hst1]
  · rw [hsv2, hsv1]
  · rw [hh2, hh1]
  · rw [hbt2, hbt1]
  · rw [hbu2, hbu1]

/-- C10: a brand-new session starts in state `INITIAL`, which has no
registered handler; so the first message of an unseen user that the global
interceptor does not catch (not a Greeting intent, no `"menu"`/`"services"`/
`"thank"` substring, no FAQ-key match — frustration is impossible for a
fresh context) takes the unknown-state fallback: the session is fully reset
(state `SERVICE_SELECTION`, slots and context cleared) and the reply is the
"Something went wrong" message followed by the services menu. -/
theorem claim10_initial_fallback (now : Nat) (uid m : String)
    (hne : (strTrim m).data ≠ [])
    (hint : classify (strTrim m) ({} : ConversationContext) ≠ Intent.GREETING)
    (hmenu : containsSub (strTrim (strLower (strTrim m))) "menu" = false)
    (hsvc : containsSub (strTrim (strLower (strTrim m))) "services" = false)
    (hthank : containsSub (strTrim (strLower (strTrim m))) "thank" = false)
    (hfaq : FAQS.findSome? (fun kv =>
      if containsSub (strTrim (strLower (strTrim m))) kv.1 = true
      then some kv.2 else none) = none) :
    (handle_message [] now uid m).1 = wentWrongReply ∧
    ∃ s, storeGet (handle_message [] now uid m).2 uid = some s ∧
      s.state = ConversationState.SERVICE_SELECTION ∧
      s.service = none ∧ s.service_key = none ∧ s.hours_per_week = none ∧
      s.business_type = none ∧ s.budget = none ∧
      s.context.intents = [] ∧ s.context.sentiment_scores = [] ∧
      s.context.clarification_attempts = 0 := by
  unfold handle_message
  simp only [List.isEmpty_iff, hne, if_false]
  simp only [get_or_create, storeGet, List.find?, Option.map]
  simp only [handle_message_body, UserSession.new, UserSession.update_timestamp]
  simp only [handle_global_commands, gcBody, analyze_and_log]
  rw [if_neg hint]
  rw [hmenu, hsvc, hthank]
  simp only [Bool.or_self, Bool.false_eq_true, if_false, hfaq]
  simp only [ConversationContext.is_frustrated, ConversationContext.add_sentiment,
    ConversationContext.add_message, List.nil_append, List.length_cons,
    List.length_nil]
  norm_num
  rw [if_neg (by decide : ¬(ConversationState.INITIAL = ConversationState.COMPLETED))]
  rw [if_neg (by decide : ¬(ConversationState.INITIAL = ConversationState.HUMAN_HANDOFF))]
  simp only [handlerFor]
  constructor
  · trivial
  · refine ⟨_, storeGet_storeSet_self _ _ _, ?_⟩
    simp [addAssistant, UserSession.reset, UserSession.update_timestamp,
      ConversationContext.add_message, takeLast]

/-- Witness for C10 at the message `"qqq"` from an unseen user: none of the
interceptor conditions fire and the fallback answers with a reset. -/
theorem claim10_witness :
    (handle_message [] 0 "u" "qqq").1 = wentWrongReply ∧
    ∃ s, storeGet (handle_message [] 0 "u" "qqq").2 "u" = some s ∧
      s.state = ConversationState.SERVICE_SELECTION ∧
      s.service = none ∧ s.service_key = none ∧ s.hours_per_week = none ∧
      s.business_type = none ∧ s.budget = none ∧
      s.context.intents = [] ∧ s.context.sentiment_scores = [] ∧
      s.context.clarification_attempts = 0 :=
  claim10_initial_fallback 0 "u" "qqq" (by decide) (by decide) (by decide)
    (by decide) (by decide) (by decide)

/-- Each `bestStep` either replaces the accumulator with the current entry
(exactly when the entry's overlap strictly exceeds the running count) or
keeps it unchanged. -/
theorem bestStep_dichotomy (w : List String) (acc : Option (String × String × Nat))
    (p : String × String) :
    (bestStep w acc p = some (p.1, p.2, svcOverlap w p.2) ∧
      accCount acc < svcOverlap w p.2) ∨
    (bestStep w acc p = acc ∧ svcOverlap w p.2 ≤ accCount acc) := by
  cases acc with
  | none =>
    by_cases h : svcOverlap w p.2 > 0
    · exact Or.inl ⟨by simp [bestStep, h], by simpa [accCount] using h⟩
    · exact Or.inr ⟨by simp [bestStep, h], by simp [accCount]; omega⟩
  | some q =>
    obtain ⟨k, n, c⟩ := q
    by_cases h : svcOverlap w p.2 > c
    · exact Or.inl ⟨by simp [bestStep, h], by simpa [accCount] using h⟩
    · exact Or.inr ⟨by simp [bestStep, h], by simp [accCount]; omega⟩

/-- Invariant of the overlap fold: a `some` result either is the untouched
accumulator dominating every entry, or names an entry of the list whose
overlap equals the result count, strictly exceeds everything before it and
dominates everything after it. -/
theorem bestFold_aux (w : List String) :
    ∀ (services : List (String × String)) (acc : Option (String × String × Nat))
      (k n : String) (c : Nat),
      services.foldl (bestStep w) acc = some (k, n, c) →
      ((acc = some (k, n, c) ∧ ∀ p ∈ services, svcOverlap w p.2 ≤ c) ∨
       (svcOverlap w n = c ∧ accCount acc < c ∧
        ∃ l1 l2, services = l1 ++ (k, n) :: l2 ∧
          (∀ p ∈ l1, svcOverlap w p.2 < c) ∧
          (∀ p ∈ l2, svcOverlap w p.2 ≤ c))) := by
  intro services
  induction services with
  | nil =>
    intro acc k n c h
    exact Or.inl ⟨h, by simp⟩
  | cons p t ih =>
    intro acc k n c h
    simp only [List.foldl_cons] at h
    rcases ih (bestStep w acc p) k n c h with ⟨heq, hall⟩ | ⟨hov, hlt, l1, l2, hsplit, hl1, hl2⟩
    · rcases bestStep_dichotomy w acc p with ⟨hrep, hgt⟩ | ⟨hkeep, hle⟩
      · have hkn := heq.symm.trans hrep
        simp only [Option.some.injEq, Prod.mk.injEq] at hkn
        obtain ⟨hk, hn, hc⟩ := hkn
        have hc' : c = svcOverlap w p.2 := hc
        refine Or.inr ⟨?_, ?_, [], t, ?_, by simp, hall⟩
        · rw [hn]; exact hc'.symm
        · rw [hc']; exact hgt
        · rw [hk, hn]; simp
      · have hkeep' : acc = some (k, n, c) := heq ▸ hkeep.symm ▸ rfl
        refine Or.inl ⟨by rw [← hkeep]; exact heq, ?_⟩
        intro q hq
        rcases List.mem_cons.mp hq with hq | hq
        · subst hq
          have : accCount acc = c := by
            rw [show acc = some (k, n, c) from by rw [← hkeep]; exact heq]
            rfl
          omega
        · exact hall q hq
    · have hple : svcOverlap w p.2 ≤ accCount (bestStep w acc p) := by
        rcases bestStep_dichotomy w acc p with ⟨hrep, _⟩ | ⟨hkeep, hle⟩
        · rw [hrep]; rfl
        · rw [hkeep]; exact hle
      have haccle : accCount acc ≤ accCount (bestStep w acc p) := by
        rcases bestStep_dichotomy w acc p with ⟨hrep, hgt⟩ | ⟨hkeep, _⟩
        · rw [hrep]; exact Nat.le_of_lt hgt
        · rw [hkeep]
      refine Or.inr ⟨hov, Nat.lt_of_le_of_lt haccle hlt, p :: l1, l2, by rw [hsplit]; rfl, ?_, hl2⟩
      intro q hq
      rcases List.mem_cons.mp hq with hq | hq
      · subst hq
        exact Nat.lt_of_le_of_lt hple hlt
      · exact hl1 q hq

/-- Soundness of the overlap loop from the initial `(None, None, 0)`: a
`some (k, n, c)` result means the entry `(k, n)` occurs in the catalog with
overlap `c > 0`, no entry has a larger overlap, and every earlier entry has
a strictly smaller one (a tie is resolved to the earliest entry). -/
theorem bestOverlapFold_spec (w : List String) (services : List (String × String))
    (k n : String) (c : Nat)
    (h : bestOverlapFold services w = some (k, n, c)) :
    svcOverlap w n = c ∧ 0 < c ∧
    (∀ p ∈ services, svcOverlap w p.2 ≤ c) ∧
    ∃ l1 l2, services = l1 ++ (k, n) :: l2 ∧
      ∀ p ∈ l1, svcOverlap w p.2 < c := by
  rcases bestFold_aux w services none k n c h with ⟨heq, _⟩ | ⟨hov, hlt, l1, l2, hsplit, hl1, hl2⟩
  · exact absurd heq (by simp)
  · refine ⟨hov, by simpa [accCount] using hlt, ?_, l1, l2, hsplit, hl1⟩
    intro p hp
    rw [hsplit] at hp
    rcases List.mem_append.mp hp with hp | hp
    · exact Nat.le_of_lt (hl1 p hp)
    · rcases List.mem_cons.mp hp with hp | hp
      · rw [hp]; exact Nat.le_of_eq hov
      · exact hl2 p hp

/-- C5 as amended: when resolution reaches the token-overlap step (steps
(a)-(d) all miss) and an entry is returned, its shared-token count is at
least 2 and no catalog entry's count exceeds it; but on a tie for the
maximum the FIRST such entry in catalog order is returned, never
`(none, none)` — every entry before the returned one scores strictly
lower. -/
theorem claim5_amended (m : String) (services : List (String × String))
    (k n : String)
    (had : svcStepsAD (strLower (strTrim m)) services = none)
    (hres : extract_service_preference m services = (some k, some n)) :
    2 ≤ svcOverlap ((wordTokens (strLower (strTrim m))).dedup) n ∧
    (∀ p ∈ services,
      svcOverlap ((wordTokens (strLower (strTrim m))).dedup) p.2 ≤
        svcOverlap ((wordTokens (strLower (strTrim m))).dedup) n) ∧
    ∃ l1 l2, services = l1 ++ (k, n) :: l2 ∧
      ∀ p ∈ l1,
        svcOverlap ((wordTokens (strLower (strTrim m))).dedup) p.2 <
          svcOverlap ((wordTokens (strLower (strTrim m))).dedup) n := by
  unfold extract_service_preference at hres
  simp only [had] at hres
  set w := (wordTokens (strLower (strTrim m))).dedup with hw
  cases hb : bestOverlapFold services w with
  | none => rw [hb] at hres; simp at hres
  | some q =>
    obtain ⟨k', n', c⟩ := q
    rw [hb] at hres
    by_cases hc : c ≥ 2
    · simp only [hc, if_true, Prod.mk.injEq, Option.some.injEq] at hres
      obtain ⟨hk, hn⟩ := hres
      obtain ⟨hov, _, hall, l1, l2, hsplit, hl1⟩ :=
        bestOverlapFold_spec w services k' n' c hb
      rw [← hk, ← hn, hov]
      exact ⟨by omega, hall, l1, l2, hsplit, hl1⟩
    · simp only [hc, if_false] at hres
      simp at hres

/-- C5, counterexample: for `"media management project thing"` resolution
reaches the token-overlap step (steps (a)-(d) all miss), the maximal overlap
2 is attained by both `"Social Media Management"` and `"Project Management"`
(and exceeded by none), yet the extractor returns the first of the tied
entries instead of `(none, none)`. -/
theorem claim5_counterexample :
    svcStepsAD (strLower (strTrim "media management project thing"))
      SERVICES = none ∧
    svcOverlap ((wordTokens (strLower (strTrim "media management project thing"))).dedup)
      "Social Media Management" = 2 ∧
    svcOverlap ((wordTokens (strLower (strTrim "media management project thing"))).dedup)
      "Project Management" = 2 ∧
    (SERVICES.all (fun p =>
      svcOverlap ((wordTokens (strLower (strTrim "media management project thing"))).dedup)
        p.2 ≤ 2) = true) ∧
    extract_service_preference "media management project thing" SERVICES =
      (some "2", some "Social Media Management") := by
  refine ⟨by decide, by decide, by decide, by decide, by decide⟩

/-- Witness for C5's amended theorem at the tied message. -/
theorem claim5_amended_witness :
    2 ≤ svcOverlap ((wordTokens (strLower (strTrim "media management project thing"))).dedup)
      "Social Media Management" ∧
    (∀ p ∈ SERVICES,
      svcOverlap ((wordTokens (strLower (strTrim "media management project thing"))).dedup) p.2 ≤
        svcOverlap ((wordTokens (strLower (strTrim "media management project thing"))).dedup)
          "Social Media Management") ∧
    ∃ l1 l2, SERVICES = l1 ++ ("2", "Social Media Management") :: l2 ∧
      ∀ p ∈ l1,
        svcOverlap ((wordTokens (strLower (strTrim "media management project thing"))).dedup) p.2 <
          svcOverlap ((wordTokens (strLower (strTrim "media management project thing"))).dedup)
            "Social Media Management" :=
  claim5_amended "media management project thing" SERVICES "2"
    "Social Media Management" (by decide) (by decide)

/-- A reset session satisfies the slot invariant (state `SERVICE_SELECTION`, all slots cleared). -/
theorem slotInv_reset (s : UserSession) (now : Nat) : SlotInv (s.reset now) := by
  simp [SlotInv, UserSession.reset, UserSession.update_timestamp]

/-- A fresh session satisfies the slot invariant. -/
theorem slotInv_new (uid : String) (now : Nat) : SlotInv (UserSession.new uid now) := by
  simp [SlotInv, UserSession.new]

/-- The global command interceptor preserves the slot invariant: it only ever moves the state to `SERVICE_SELECTION` or leaves it, and never touches a slot. -/
theorem slotInv_gc (msgl m : String) (s : UserSession) (i : Intent)
    (hs : SlotInv s) : SlotInv (gcBody msgl m s i).2 := by
  obtain ⟨h1, h2, h3, h4, h5⟩ := hs
  unfold gcBody
  repeat' split
  all_goals simp_all [SlotInv, ConversationContext.add_message]

/-- The service-selection handler establishes the slot invariant outright: it enters `SERVICE_DETAIL` only after setting the service slot. -/
theorem slotInv_serviceSelection (now : Nat) (s : UserSession) (m : String) (i : Intent) :
    SlotInv { (ServiceSelectionHandler.handle now s m i).session with
              state := (ServiceSelectionHandler.handle now s m i).next } := by
  unfold ServiceSelectionHandler.handle
  repeat' split
  all_goals simp_all [SlotInv, handle_human_request, UserSession.reset,
    UserSession.update_timestamp]

/-- The service-detail handler preserves the slot invariant: confirmation carries the set service into `HOURS_COLLECTION`, rejection leaves for `SERVICE_SELECTION`. -/
theorem slotInv_serviceDetail (now : Nat) (s : UserSession) (m : String) (i : Intent)
    (hst : s.state = ConversationState.SERVICE_DETAIL) (hs : SlotInv s) :
    SlotInv { (ServiceDetailHandler.handle now s m i).session with
              state := (ServiceDetailHandler.handle now s m i).next } := by
  obtain ⟨h1, h2, h3, h4, h5⟩ := hs
  unfold ServiceDetailHandler.handle
  repeat' split
  all_goals simp_all [SlotInv]

/-- The hours handler preserves the slot invariant: it enters `BUSINESS_TYPE` only after setting the hours slot. -/
theorem slotInv_hours (now : Nat) (s : UserSession) (m : String) (i : Intent)
    (hst : s.state = ConversationState.HOURS_COLLECTION) (hs : SlotInv s) :
    SlotInv { (HoursCollectionHandler.handle now s m i).session with
              state := (HoursCollectionHandler.handle now s m i).next } := by
  obtain ⟨h1, h2, h3, h4, h5⟩ := hs
  unfold HoursCollectionHandler.handle
  repeat' split
  all_goals simp_all [SlotInv]

/-- The business-type handler preserves the slot invariant. -/
theorem slotInv_business (now : Nat) (s : UserSession) (m : String) (i : Intent)
    (hst : s.state = ConversationState.BUSINESS_TYPE) (hs : SlotInv s) :
    SlotInv { (BusinessTypeHandler.handle now s m i).session with
              state := (BusinessTypeHandler.handle now s m i).next } := by
  obtain ⟨h1, h2, h3, h4, h5⟩ := hs
  unfold BusinessTypeHandler.handle
  repeat' split
  all_goals simp_all [SlotInv]

/-- The budget handler preserves the slot invariant: it enters `CONFIRMATION` only after setting the budget slot. -/
theorem slotInv_budget (now : Nat) (s : UserSession) (m : String) (i : Intent)
    (hst : s.state = ConversationState.BUDGET_COLLECTION) (hs : SlotInv s) :
    SlotInv { (BudgetCollectionHandler.handle now s m i).session with
              state := (BudgetCollectionHandler.handle now s m i).next } := by
  obtain ⟨h1, h2, h3, h4, h5⟩ := hs
  unfold BudgetCollectionHandler.handle
  cases hb : extract_budget m <;> simp only [hb] <;> repeat' split
  all_goals simp_all [SlotInv]

/-- The confirmation handler preserves the slot invariant. -/
theorem slotInv_confirmation (now : Nat) (s : UserSession) (m : String) (i : Intent)
    (hst : s.state = ConversationState.CONFIRMATION) (hs : SlotInv s) :
    SlotInv { (ConfirmationHandler.handle now s m i).session with
              state := (ConfirmationHandler.handle now s m i).next } := by
  obtain ⟨h1, h2, h3, h4, h5⟩ := hs
  unfold ConfirmationHandler.handle
  repeat' split
  all_goals simp_all [SlotInv, UserSession.reset, UserSession.update_timestamp]

/-- One full `handle_message` body pass preserves the slot invariant of the session it acts on. -/
theorem slotInv_body (now : Nat) (m : String) (s : UserSession) (hs : SlotInv s) :
    SlotInv (handle_message_body now m s).2 := by
  unfold handle_message_body
  set s1 := s.update_timestamp now with hs1def
  set i := classify m s1.context with hidef
  set s2 := analyze_and_log s1 m i with hs2def
  have hS2 : SlotInv s2 := by
    rw [hs2def, hs1def]
    simpa [SlotInv, analyze_and_log, UserSession.update_timestamp] using hs
  cases hg : handle_global_commands m s2 i with
  | mk o s3 =>
    have hS3 : SlotInv s3 := by
      have h := slotInv_gc (strTrim (strLower m)) m s2 i hS2
      have heq : (gcBody (strTrim (strLower m)) m s2 i).2 = s3 := by
        rw [show gcBody (strTrim (strLower m)) m s2 i =
          handle_global_commands m s2 i from rfl, hg]
      rwa [heq] at h
    cases o with
    | some r =>
      simp only [hg]
      simpa [SlotInv, addAssistant] using hS3
    | none =>
      simp only [hg]
      cases hstate : s3.state
      case INITIAL =>
        simp_all [SlotInv, addAssistant, UserSession.reset,
          UserSession.update_timestamp, handlerFor]
      case SERVICE_SELECTION =>
        simp only [hstate, handlerFor, reduceCtorEq, if_false]
        have h := slotInv_serviceSelection now s3 m i
        simpa [SlotInv, addAssistant] using h
      case SERVICE_DETAIL =>
        simp only [hstate, handlerFor, reduceCtorEq, if_false]
        have h := slotInv_serviceDetail now s3 m i hstate hS3
        simpa [SlotInv, addAssistant] using h
      case HOURS_COLLECTION =>
        simp only [hstate, handlerFor, reduceCtorEq, if_false]
        have h := slotInv_hours now s3 m i hstate hS3
        simpa [SlotInv, addAssistant] using h
      case BUSINESS_TYPE =>
        simp only [hstate, handlerFor, reduceCtorEq, if_false]
        have h := slotInv_business now s3 m i hstate hS3
        simpa [SlotInv, addAssistant] using h
      case BUDGET_COLLECTION =>
        simp only [hstate, handlerFor, reduceCtorEq, if_false]
        have h := slotInv_budget now s3 m i hstate hS3
        simpa [SlotInv, addAssistant] using h
      case CONFIRMATION =>
        simp only [hstate, handlerFor, reduceCtorEq, if_false]
        have h := slotInv_confirmation now s3 m i hstate hS3
        simpa [SlotInv, addAssistant] using h
      case COMPLETED =>
        simp only [hstate, reduceCtorEq, if_true]
        split
        · simp [SlotInv, addAssistant, UserSession.reset, UserSession.update_timestamp]
        · simp [SlotInv, addAssistant, hstate]
      case HUMAN_HANDOFF =>
        simp only [hstate, reduceCtorEq, if_false, if_true]
        split
        · simp [SlotInv, addAssistant, hstate]
        · simp [SlotInv, addAssistant]
      case FAQ_MODE =>
        simp_all [SlotInv, addAssistant, UserSession.reset,
          UserSession.update_timestamp, handlerFor]
      case ERROR =>
        simp_all [SlotInv, addAssistant, UserSession.reset,
          UserSession.update_timestamp, handlerFor]

/-- A session read from an invariant store satisfies the slot invariant. -/
theorem storeInv_get (st : Store) (uid : String) (s : UserSession)
    (hst : StoreInv st) (h : storeGet st uid = some s) : SlotInv s := by
  unfold storeGet at h
  cases hf : st.find? (fun p => p.1 == uid) with
  | none => rw [hf] at h; simp at h
  | some q =>
    rw [hf] at h
    simp only [Option.map_some'] at h
    cases h
    exact hst q (List.mem_of_find?_eq_some hf)

/-- Storing an invariant session preserves the store invariant. -/
theorem storeInv_set (st : Store) (uid : String) (s : UserSession)
    (hst : StoreInv st) (hs : SlotInv s) : StoreInv (storeSet st uid s) := by
  induction st with
  | nil =>
    intro p hp
    simp only [storeSet, List.mem_singleton] at hp
    rw [hp]
    exact hs
  | cons q t ih =>
    obtain ⟨k, v⟩ := q
    have hq : SlotInv v := hst (k, v) (by simp)
    have ht : StoreInv t := fun p hp => hst p (List.mem_cons_of_mem _ hp)
    intro p hp
    simp only [storeSet] at hp
    by_cases hk : (k == uid) = true
    · rw [if_pos hk] at hp
      rcases List.mem_cons.mp hp with hp | hp
      · rw [hp]; exact hs
      · exact ht p hp
    · rw [if_neg hk] at hp
      rcases List.mem_cons.mp hp with hp | hp
      · rw [hp]; exact hq
      · exact ih ht p hp

/-- `get_or_create` hands out an invariant session and keeps the store invariant (a fresh replacement satisfies the invariant trivially). -/
theorem get_or_create_inv (st : Store) (uid : String) (now : Nat)
    (hst : StoreInv st) :
    SlotInv (get_or_create st uid now).1 ∧ StoreInv (get_or_create st uid now).2 := by
  unfold get_or_create
  cases hg : storeGet st uid with
  | none =>
    exact ⟨slotInv_new _ _, storeInv_set _ _ _ hst (slotInv_new _ _)⟩
  | some sess =>
    by_cases he : sess.is_session_expired now session_timeout = true
    · simp only [he, if_true]
      exact ⟨slotInv_new _ _, storeInv_set _ _ _ hst (slotInv_new _ _)⟩
    · simp only [he, if_false]
      exact ⟨storeInv_get _ _ _ hst hg, hst⟩

/-- A full `handle_message` call preserves the store invariant. -/
theorem storeInv_handle (st : Store) (now : Nat) (uid m : String)
    (hst : StoreInv st) : StoreInv (handle_message st now uid m).2 := by
  unfold handle_message
  obtain ⟨h1, h2⟩ := get_or_create_inv st uid now hst
  cases hgc : get_or_create st uid now with
  | mk sess st2 =>
    rw [hgc] at h1 h2
    simp only [hgc]
    split
    · exact hst
    · cases hb : handle_message_body now (strTrim m) sess with
      | mk r sess2 =>
        simp only [hb]
        have hbody := slotInv_body now (strTrim m) sess h1
        rw [hb] at hbody
        exact storeInv_set _ _ _ h2 hbody

/-- Any script of messages, run from the empty store, yields an invariant store. -/
theorem storeInv_run (steps : List (Nat × String × String)) :
    StoreInv (runScript steps) := by
  unfold runScript
  suffices h : ∀ st, StoreInv st →
      StoreInv (steps.foldl
        (fun st step => (handle_message st step.1 step.2.1 step.2.2).2) st) by
    exact h [] (by intro p hp; simp at hp)
  induction steps with
  | nil => intro st hst; exact hst
  | cons a t ih =>
    intro st hst
    exact ih _ (storeInv_handle _ _ _ _ hst)

/-- C9, counterexample: after the reachable script `c9Steps` (complete the
flow to `BUSINESS_TYPE`, escape via the global `"menu"` command, re-select
service `"1"` and reject it) the session holds `hours_per_week = 10` while
`service = None`: a later slot is set while an earlier one is unset, and the
rejection cleared the service slot alone rather than all slots together. -/
theorem claim9_counterexample :
    (storeGet (runScript c9Steps) "U").map UserSession.service = some none ∧
    (storeGet (runScript c9Steps) "U").map UserSession.hours_per_week =
      some (some 10) ∧
    (storeGet (runScript c9Steps) "U").map UserSession.state =
      some ConversationState.SERVICE_SELECTION := by
  refine ⟨by decide, by decide, by decide⟩

/-- C9 as amended: in every session reachable through `handle_message` the
slots are populated monotonically along the forward flow states — each
collection state has all earlier slots filled (the `SlotInv` invariant).
After a global `"menu"`/greeting escape, a ServiceDetail rejection clears
only the service slot, so outside those states a later slot may outlive an
earlier one. -/
theorem claim9_amended (steps : List (Nat × String × String)) (uid : String)
    (s : UserSession) (h : storeGet (runScript steps) uid = some s) :
    SlotInv s :=
  storeInv_get _ _ _ (storeInv_run steps) h

set_option maxRecDepth 8192 in
/-- Witness for C9's amended theorem: the session reached by a single
`"hi"` message satisfies the invariant. -/
theorem claim9_amended_witness : SlotInv c9wSession :=
  claim9_amended [(0, "U", "hi")] "U" c9wSession (by decide)

/-- Every character kept by `takeWhile` satisfies the predicate. -/
theorem all_takeWhileCL (p : Char → Bool) (l : List Char) :
    (l.takeWhile p).all p = true := by
  induction l with
  | nil => rfl
  | cons c t ih =>
    rw [List.takeWhile_cons]
    split
    · simp [*]
    · rfl

/-- The first character surviving `dropWhile`, if any, fails the predicate. -/
theorem dropWhile_headNot (p : Char → Bool) (l : List Char) :
    l.dropWhile p = [] ∨
      ∃ c t, l.dropWhile p = c :: t ∧ p c = false := by
  induction l with
  | nil => exact Or.inl rfl
  | cons c t ih =>
    rw [List.dropWhile_cons]
    split
    · exact ih
    · exact Or.inr ⟨c, t, rfl, by simp_all⟩

/-- `dropWhile` swallows a prefix all of whose characters satisfy the predicate. -/
theorem dropWhile_of_all_append (p : Char → Bool) (ds post : List Char)
    (hall : ds.all p = true) :
    List.dropWhile p (ds ++ post) = List.dropWhile p post := by
  induction ds with
  | nil => rfl
  | cons c t ih =>
    simp only [List.all_cons, Bool.and_eq_true] at hall
    rw [List.cons_append, List.dropWhile_cons, if_pos hall.1]
    exact ih hall.2

/-- `dropWhile` is the identity on a list that is empty or starts with a failing character. -/
theorem dropWhile_eq_self_of_head (p : Char → Bool) (post : List Char)
    (h : post = [] ∨ ∃ c t, post = c :: t ∧ p c = false) :
    List.dropWhile p post = post := by
  rcases h with h | ⟨c, t, h, hc⟩
  · rw [h]; rfl
  · rw [h, List.dropWhile_cons, if_neg (by simp [hc])]

/-- Soundness of the digit-first scans (hours patterns 1 and 3): a returned group is a maximal digit run of the scanned text whose remainder passes the tail check. The first successful position cannot sit inside a digit run, because the tail check only sees the text after the run and would already have succeeded at the run's start. -/
theorem scanTail_sound (tailCheck : List Char → Bool) :
    ∀ (s ds : List Char), scanTail tailCheck s = some ds →
      ds ≠ [] ∧ ds.all Char.isDigit = true ∧
      ∃ pre post, s = pre ++ ds ++ post ∧
        (pre = [] ∨ ∃ p c, pre = p ++ [c] ∧ c.isDigit = false) ∧
        (post = [] ∨ ∃ c t, post = c :: t ∧ c.isDigit = false) ∧
        tailCheck post = true := by
  intro s
  induction s with
  | nil => intro ds h; simp [scanTail] at h
  | cons c t ih =>
    intro ds h
    by_cases hc : c.isDigit = true
    · have hdw : List.dropWhile Char.isDigit (c :: t) =
          List.dropWhile Char.isDigit t := by
        simp [List.dropWhile_cons, hc]
      by_cases htl : tailCheck (List.dropWhile Char.isDigit t) = true
      · have hds : ds = c :: List.takeWhile Char.isDigit t := by
          simp [scanTail, hc, htl] at h
          exact h.symm
        subst hds
        refine ⟨by simp, ?_, [], List.dropWhile Char.isDigit t,
          ?_, Or.inl rfl, ?_, htl⟩
        · simp only [List.all_cons, Bool.and_eq_true]
          exact ⟨hc, all_takeWhileCL Char.isDigit t⟩
        · simp [List.takeWhile_append_dropWhile]
        · exact dropWhile_headNot _ _
      · have hrec : scanTail tailCheck t = some ds := by
          simp [scanTail, hc, htl] at h
          exact h
        obtain ⟨hne, hall, pre', post', hsplit, hpre, hpost, htc⟩ := ih ds hrec
        rcases hpre with hpre | ⟨p, c', hpc, hcd⟩
        · exfalso
          subst hpre
          simp only [List.nil_append] at hsplit
          rw [hsplit, dropWhile_of_all_append _ _ _ hall,
            dropWhile_eq_self_of_head _ _ hpost] at htl
          exact htl htc
        · refine ⟨hne, hall, c :: pre', post', by simp [hsplit], ?_, hpost, htc⟩
          exact Or.inr ⟨c :: p, c', by simp [hpc], hcd⟩
    · have hrec : scanTail tailCheck t = some ds := by
        simpa [scanTail, hc] using h
      obtain ⟨hne, hall, pre', post', hsplit, hpre, hpost, htc⟩ := ih ds hrec
      rcases hpre with hpre | ⟨p, c', hpc, hcd⟩
      · subst hpre
        refine ⟨hne, hall, [c], post', by simp [hsplit], ?_, hpost, htc⟩
        exact Or.inr ⟨[], c, rfl, by simpa using hc⟩
      · refine ⟨hne, hall, c :: pre', post', by simp [hsplit], ?_, hpost, htc⟩
        exact Or.inr ⟨c :: p, c', by simp [hpc], hcd⟩

/-- A whitespace character is not a digit. -/
theorem ws_not_digit (c : Char) (h : c.isWhitespace = true) :
    c.isDigit = false := by
  simp only [Char.isWhitespace, Bool.or_eq_true, decide_eq_true_eq] at h
  rcases h with ((h | h) | h) | h <;> subst h <;> decide

/-- A verified prefix splits the list. -/
theorem startsWith_decomp (pat s : List Char)
    (h : startsWithCL pat s = true) :
    s = pat ++ List.drop pat.length s := by
  induction pat generalizing s with
  | nil => simp
  | cons a pat ih =>
    cases s with
    | nil => simp [startsWithCL] at h
    | cons b t =>
      simp only [startsWithCL, Bool.and_eq_true, decide_eq_true_eq] at h
      obtain ⟨hab, ht⟩ := h
      simpa [hab] using ih t ht

/-- The `need`/`want`/`require` token of hours pattern 2 splits the text and ends in a non-digit. -/
theorem p2Tok_sound (s rest : List Char) (h : p2Tok s = some rest) :
    ∃ tok, s = tok ++ rest ∧ ∃ p c, tok = p ++ [c] ∧ c.isDigit = false := by
  unfold p2Tok at h
  split at h
  · refine ⟨"need".data, ?_, ['n', 'e', 'e'], 'd', rfl, by decide⟩
    obtain rfl : rest = s.drop 4 := by simpa using h.symm
    simpa using startsWith_decomp "need".data s (by assumption)
  · split at h
    · refine ⟨"want".data, ?_, ['w', 'a', 'n'], 't', rfl, by decide⟩
      obtain rfl : rest = s.drop 4 := by simpa using h.symm
      simpa using startsWith_decomp "want".data s (by assumption)
    · split at h
      · refine ⟨"require".data, ?_, ['r', 'e', 'q', 'u', 'i', 'r'], 'e', rfl, by decide⟩
        obtain rfl : rest = s.drop 7 := by simpa using h.symm
        simpa using startsWith_decomp "require".data s (by assumption)
      · simp at h

/-- Soundness of one position of hours pattern 2: the group is a maximal digit run, preceded by the keyword and optional whitespace (hence by a non-digit). -/
theorem p2At_sound (s ds : List Char) (h : p2At s = some ds) :
    ds ≠ [] ∧ ds.all Char.isDigit = true ∧
    ∃ pre post, s = pre ++ ds ++ post ∧
      (∃ p c, pre = p ++ [c] ∧ c.isDigit = false) ∧
      (post = [] ∨ ∃ c t, post = c :: t ∧ c.isDigit = false) := by
  unfold p2At at h
  cases htok : p2Tok s with
  | none => rw [htok] at h; simp at h
  | some rest =>
    rw [htok] at h
    simp only [] at h
    by_cases hne : ((rest.dropWhile Char.isWhitespace).takeWhile Char.isDigit).isEmpty = true
    · rw [if_pos hne] at h; simp at h
    · rw [if_neg hne] at h
      by_cases ht3 : hoursTail3 ((rest.dropWhile Char.isWhitespace).dropWhile Char.isDigit) = true
      · rw [if_pos ht3] at h
        obtain rfl : ds = (rest.dropWhile Char.isWhitespace).takeWhile Char.isDigit := by
          simpa using h.symm
        obtain ⟨tok, hs, p, c, hpc, hcd⟩ := p2Tok_sound s rest htok
        refine ⟨by simpa [List.isEmpty_iff] using hne, all_takeWhileCL _ _, ?_⟩
        set r := rest.dropWhile Char.isWhitespace with hr
        set wsRun := rest.takeWhile Char.isWhitespace with hws
        have hrest : rest = wsRun ++ r := by
          rw [hws, hr]
          exact (List.takeWhile_append_dropWhile Char.isWhitespace rest).symm
        have hrsplit : r = r.takeWhile Char.isDigit ++ r.dropWhile Char.isDigit :=
          (List.takeWhile_append_dropWhile Char.isDigit r).symm
        refine ⟨tok ++ wsRun, r.dropWhile Char.isDigit, ?_, ?_, ?_⟩
        · rw [hs, hrest]
          rw [show wsRun ++ r =
            wsRun ++ (r.takeWhile Char.isDigit ++ r.dropWhile Char.isDigit) from
            by rw [← hrsplit]]
          simp [List.append_assoc]
        · rcases List.eq_nil_or_concat wsRun with hnil | ⟨w2, cw, hcat⟩
          · rw [hnil, List.append_nil]
            exact ⟨p, c, hpc, hcd⟩
          · refine ⟨tok ++ w2, cw,
              by simp [hcat, List.concat_eq_append, List.append_assoc], ?_⟩
            have hall := all_takeWhileCL Char.isWhitespace rest
            rw [← hws, hcat] at hall
            simp only [List.concat_eq_append, List.all_append, List.all_cons,
              Bool.and_eq_true] at hall
            exact ws_not_digit cw hall.2.1
        · exact dropWhile_headNot _ _
      · rw [if_neg ht3] at h; simp at h

/-- Soundness of the pattern-2 scan. -/
theorem p2Find_sound : ∀ (s ds : List Char), p2Find s = some ds →
    ds ≠ [] ∧ ds.all Char.isDigit = true ∧
    ∃ pre post, s = pre ++ ds ++ post ∧
      (∃ p c, pre = p ++ [c] ∧ c.isDigit = false) ∧
      (post = [] ∨ ∃ c t, post = c :: t ∧ c.isDigit = false) := by
  intro s
  induction s with
  | nil => intro ds h; simp [p2Find] at h
  | cons c t ih =>
    intro ds h
    cases hat : p2At (c :: t) with
    | some ds2 =>
      have : ds2 = ds := by
        simp [p2Find, hat] at h
        exact h
      subst this
      exact p2At_sound _ _ hat
    | none =>
      have hrec : p2Find t = some ds := by
        simp [p2Find, hat] at h
        exact h
      obtain ⟨hne, hall, pre2, post2, hsplit, ⟨p, c2, hpc, hcd⟩, hpost⟩ := ih ds hrec
      exact ⟨hne, hall, c :: pre2, post2, by simp [hsplit],
        ⟨c :: p, c2, by simp [hpc], hcd⟩, hpost⟩

/-- Digits are word characters. -/
theorem wordChar_of_digit (c : Char) (h : c.isDigit = true) :
    isWordChar c = true := by
  simp [isWordChar, Char.isAlphanum, h]

/-- Soundness of the pattern-4 scan: the group is a maximal digit run whose left neighbour, tracked through the scan, respects the leading word boundary. -/
theorem p4Find_sound : ∀ (prev : Option Char) (s ds : List Char),
    p4Find prev s = some ds →
    ds ≠ [] ∧ ds.all Char.isDigit = true ∧
    ∃ pre post, s = pre ++ ds ++ post ∧
      ((pre = [] ∧ boundaryB prev = true) ∨
        (∃ p c, pre = p ++ [c] ∧ isWordChar c = false)) ∧
      (post = [] ∨ ∃ c t, post = c :: t ∧ c.isDigit = false) := by
  intro prev s
  induction s generalizing prev with
  | nil => intro ds h; simp [p4Find] at h
  | cons c t ih =>
    intro ds h
    by_cases hb : (boundaryB prev && c.isDigit) = true
    · obtain ⟨hbd, hcd⟩ := Bool.and_eq_true_iff.mp hb
      have hdw : List.dropWhile Char.isDigit (c :: t) =
          List.dropWhile Char.isDigit t := by
        simp [List.dropWhile_cons, hcd]
      by_cases htl : hoursTail4 (List.dropWhile Char.isDigit t) = true
      · have hds : ds = List.takeWhile Char.isDigit (c :: t) := by
          simp [p4Find, hb, hdw, htl] at h
          exact h.symm
        subst hds
        have htw : List.takeWhile Char.isDigit (c :: t) =
            c :: List.takeWhile Char.isDigit t := by
          simp [List.takeWhile_cons, hcd]
        refine ⟨by simp [htw], ?_, [], List.dropWhile Char.isDigit t, ?_,
          Or.inl ⟨rfl, hbd⟩, ?_⟩
        · rw [htw]
          simp only [List.all_cons, Bool.and_eq_true]
          exact ⟨hcd, all_takeWhileCL Char.isDigit t⟩
        · rw [htw]
          simp [List.takeWhile_append_dropWhile]
        · exact dropWhile_headNot _ _
      · have hrec : p4Find (some c) t = some ds := by
          simp [p4Find, hb, hdw, htl] at h
          exact h
        obtain ⟨hne, hall, pre2, post2, hsplit, hpre, hpost⟩ := ih (some c) ds hrec
        rcases hpre with ⟨hnil, hbc⟩ | ⟨p, c2, hpc, hcw⟩
        · subst hnil
          refine ⟨hne, hall, [c], post2, by simp [hsplit], ?_, hpost⟩
          exact Or.inr ⟨[], c, rfl, by simpa [boundaryB] using hbc⟩
        · refine ⟨hne, hall, c :: pre2, post2, by simp [hsplit], ?_, hpost⟩
          exact Or.inr ⟨c :: p, c2, by simp [hpc], hcw⟩
    · have hrec : p4Find (some c) t = some ds := by
        simp [p4Find, hb] at h
        exact h
      obtain ⟨hne, hall, pre2, post2, hsplit, hpre, hpost⟩ := ih (some c) ds hrec
      rcases hpre with ⟨hnil, hbc⟩ | ⟨p, c2, hpc, hcw⟩
      · subst hnil
        refine ⟨hne, hall, [c], post2, by simp [hsplit], ?_, hpost⟩
        exact Or.inr ⟨[], c, rfl, by simpa [boundaryB] using hbc⟩
      · refine ⟨hne, hall, c :: pre2, post2, by simp [hsplit], ?_, hpost⟩
        exact Or.inr ⟨c :: p, c2, by simp [hpc], hcw⟩

/-- One step of the pattern loop of `extract_hours` returns either an in-range value of the pattern's group or the next pattern's result. -/
theorem hoursGate_sound (o : Option (List Char)) (next : Option Nat) (n : Nat)
    (h : hoursGate o next = some n) :
    (∃ ds, o = some ds ∧ digitsVal ds = n ∧ 1 ≤ n ∧ n ≤ 168) ∨ next = some n := by
  cases o with
  | none => simp only [hoursGate] at h; exact Or.inr h
  | some ds2 =>
    simp only [hoursGate] at h
    split at h
    · obtain rfl : digitsVal ds2 = n := by simpa using h
      refine Or.inl ⟨ds2, rfl, rfl, ?_, ?_⟩ <;> simp_all
    · exact Or.inr h

/-- Any value returned by `extract_hours` lies in [1, 168] and is the value of a maximal digit run (an embedded integer) of the lower-cased message. -/
theorem extract_hours_sound (m : String) (n : Nat)
    (h : extract_hours m = some n) :
    (1 ≤ n ∧ n ≤ 168) ∧
    ∃ run, IsMaxDigitRun (strLower m).data run ∧ digitsVal run = n := by
  simp only [extract_hours] at h
  rcases hoursGate_sound _ _ _ h with ⟨ds, h1, hval, hlo, hhi⟩ | h
  · obtain ⟨hne, hall, pre, post, hsplit, hpre, hpost, _⟩ :=
      scanTail_sound hoursTail1 _ ds h1
    exact ⟨⟨hlo, hhi⟩, ds, ⟨hne, hall, pre, post, hsplit, hpre, hpost⟩, hval⟩
  rcases hoursGate_sound _ _ _ h with ⟨ds, h1, hval, hlo, hhi⟩ | h
  · obtain ⟨hne, hall, pre, post, hsplit, hpre, hpost⟩ := p2Find_sound _ ds h1
    exact ⟨⟨hlo, hhi⟩, ds, ⟨hne, hall, pre, post, hsplit, Or.inr hpre, hpost⟩, hval⟩
  rcases hoursGate_sound _ _ _ h with ⟨ds, h1, hval, hlo, hhi⟩ | h
  · obtain ⟨hne, hall, pre, post, hsplit, hpre, hpost, _⟩ :=
      scanTail_sound hoursTail3 _ ds h1
    exact ⟨⟨hlo, hhi⟩, ds, ⟨hne, hall, pre, post, hsplit, hpre, hpost⟩, hval⟩
  rcases hoursGate_sound _ _ _ h with ⟨ds, h1, hval, hlo, hhi⟩ | h
  · obtain ⟨hne, hall, pre, post, hsplit, hpre, hpost⟩ := p4Find_sound none _ ds h1
    refine ⟨⟨hlo, hhi⟩, ds, ⟨hne, hall, pre, post, hsplit, ?_, hpost⟩, hval⟩
    rcases hpre with ⟨hnil, _⟩ | ⟨p, c, hpc, hcw⟩
    · exact Or.inl hnil
    · refine Or.inr ⟨p, c, hpc, ?_⟩
      cases hcd : c.isDigit with
      | false => rfl
      | true => rw [wordChar_of_digit c hcd] at hcw; cases hcw
  · simp at h

/-- C4: `extract_hours` returns an integer only when it lies in [1, 168] and
that integer is always one embedded in the message (the value of a maximal
digit run of the lower-cased text, never a clamped substitute); consequently
a message all of whose embedded integers are out of range yields `none`.
E.g. `"I need 10 hours a week"` gives 10 and `"500 hours"` gives none. -/
theorem claim4_hours_range :
    (∀ (m : String) (n : Nat), extract_hours m = some n →
      (1 ≤ n ∧ n ≤ 168) ∧
      ∃ run, IsMaxDigitRun (strLower m).data run ∧ digitsVal run = n) ∧
    (∀ m : String,
      (∀ run, IsMaxDigitRun (strLower m).data run →
        digitsVal run < 1 ∨ 168 < digitsVal run) →
      extract_hours m = none) ∧
    extract_hours "I need 10 hours a week" = some 10 ∧
    extract_hours "500 hours" = none := by
  refine ⟨fun m n h => extract_hours_sound m n h, ?_, by decide, by decide⟩
  intro m hall
  cases he : extract_hours m with
  | none => rfl
  | some n =>
    obtain ⟨⟨hlo, hhi⟩, run, hrun, hval⟩ := extract_hours_sound m n he
    rcases hall run hrun with hbad | hbad <;> omega

/-- Witness for C4 at `"I need 10 hours a week"`: the extracted 10 is in
range and is an embedded integer of the message. -/
theorem claim4_witness :
    (1 ≤ 10 ∧ 10 ≤ 168) ∧
    ∃ run, IsMaxDigitRun (strLower "I need 10 hours a week").data run ∧
      digitsVal run = 10 :=
  claim4_hours_range.1 "I need 10 hours a week" 10 (by decide)

/-- Witness for C2's amended theorem at concrete inputs. -/
theorem claim2_amended_witness :
    (ServiceSelectionHandler.handle 0 (UserSession.new "u" 0) "agent"
      Intent.HUMAN_REQUEST).next = ConversationState.HUMAN_HANDOFF ∧
    (ServiceDetailHandler.handle 0 (UserSession.new "u" 0) "agent"
      Intent.HUMAN_REQUEST).next ≠ ConversationState.HUMAN_HANDOFF := by
  have h1 := claim2_amended.1 0 (UserSession.new "u" 0) "agent"
  have h2 := (claim2_amended.2 0 (UserSession.new "u" 0) "agent"
    Intent.HUMAN_REQUEST).1
  exact ⟨by rw [h1.1]; exact h1.2.1, h2⟩

end VHelp
